import Mathlib

/-!
Verification development for the GoingViralMap simulation engine
(src/src/components/Simulation.tsx).

The engine is embedded shallowly:
* coordinates, timestamps and probabilities are exact rationals (every value
  the source stores is produced by rational arithmetic on random draws);
* the haversine distance is a real-valued function built from `Real.sin`,
  `Real.cos`, `Real.sqrt`, `Real.arctan` and an `atan2` defined like
  JavaScript's `Math.atan2`;
* the React component state is a record `SimState`; the two `setInterval`
  drivers, the `setTimeout` completion callbacks, the result-capture effect
  and the UI commands become events of a step relation.  Each callback body
  is applied atomically, reading the closure's pre-tick snapshot exactly
  where the source does and composing the functional state updates in
  program order.  `Math.random()` draws become oracle parameters.
-/

/-! ## Data model (Simulation.tsx lines 5-33) -/

inductive EStatus where
  | pending
  | assigned
  | completed
  | canceled
deriving DecidableEq, Repr

structure Emergency where
  id : ℚ
  coordinates : ℚ × ℚ
  timestamp : ℕ
  status : EStatus
  assignedResponder : Option ℕ := none
  waitTime : ℚ := 0
  gridCell : ℤ × ℤ
deriving DecidableEq, Repr

structure FirstResponder where
  id : ℕ
  coordinates : ℚ × ℚ
  busyUntil : ℚ
  gridCell : ℤ × ℤ
deriving DecidableEq, Repr

inductive PipelineKind where
  | report
  | call
deriving DecidableEq, Repr

structure SimulationResult where
  trial : ℕ
  type : PipelineKind
  avgTimePerEmergency : ℚ
  avgProcessTime : ℚ
  totalTimeSpent : ℚ
  selfCompleted : ℕ
  canceled : ℕ
  totalCompleted : ℕ
deriving DecidableEq, Repr

/-- The source's `SpatialGrid` is a `Map<string, number[]>` from cell key
`latCell,lngCell` to responder ids; the key encoding of two integers is
injective, so we model it as a total function defaulting to `[]`
(matching `grid.get(cell)` being `undefined`). -/
def SpatialGrid : Type := ℤ × ℤ → List ℕ

/-! ## Constants (Simulation.tsx lines 35-66) -/

def HOUSTON_latMin : ℚ := 29.5
def HOUSTON_latMax : ℚ := 30.1
def HOUSTON_lngMin : ℚ := -95.8
def HOUSTON_lngMax : ℚ := -94.9

def BASE_CALLS : ℕ := 75000
def SIMULATION_HOURS : ℕ := 48
def CALL_OPERATORS_COUNT : ℕ := 500
def RESPONDERS_COUNT : ℕ := 17650

def GRID_SIZE : ℚ := 0.02
def SELF_COMPLETE_CHECK_INTERVAL : ℕ := 60

def CALL_PROCESS_TIME_min : ℚ := 120
def CALL_PROCESS_TIME_max : ℚ := 300
def REPORT_PROCESS_TIME_min : ℚ := 30
def REPORT_PROCESS_TIME_max : ℚ := 90
def HANGUP_THRESHOLD : ℚ := 300
def HANGUP_CHANCE : ℚ := 0.1

def CALL_SELF_COMPLETE_closeRange : ℚ := 1
def CALL_SELF_COMPLETE_closeChance : ℚ := 0.02

def REPORT_MAX_RANGE : ℚ := 10

/-- The simulated horizon `SIMULATION_HOURS * 3600` in seconds. -/
def HORIZON : ℕ := SIMULATION_HOURS * 3600

/-! ## Geometry and spatial grid (Simulation.tsx lines 120-196) -/

/-- `getGridCell` (lines 121-125): cell key of a coordinate pair,
`(Math.floor(lat / GRID_SIZE), Math.floor(lng / GRID_SIZE))`. -/
def getGridCell (coords : ℚ × ℚ) : ℤ × ℤ :=
  (⌊coords.1 / GRID_SIZE⌋, ⌊coords.2 / GRID_SIZE⌋)

/-- All integers from `lo` to `hi` inclusive (a `for` loop's index range). -/
def intRange (lo hi : ℤ) : List ℤ :=
  (List.range (hi - lo + 1).toNat).map fun i : ℕ => lo + (i : ℤ)

/-- `getAdjacentCells` (lines 128-137): the square block of cells with
`dLat` and `dLng` each ranging over `-radius .. radius`.  The source's
string round trip `cell.split(',').map(Number)` is the identity on the
pair model. -/
def getAdjacentCells (cell : ℤ × ℤ) (radius : ℤ) : List (ℤ × ℤ) :=
  (intRange (-radius) radius).flatMap fun dLat =>
    (intRange (-radius) radius).map fun dLng => (cell.1 + dLat, cell.2 + dLng)

/-- `buildSpatialGrid` (lines 140-150): bucket the responders by their stored
`gridCell`; each bucket lists ids in population order, exactly the order the
source pushes them. -/
def buildSpatialGrid (responders : List FirstResponder) : SpatialGrid :=
  fun cell => (responders.filter fun r => decide (r.gridCell = cell)).map FirstResponder.id

/-- JavaScript's `Math.atan2 y x`. -/
noncomputable def atan2 (y x : ℝ) : ℝ :=
  if 0 < x then Real.arctan (y / x)
  else if x < 0 then
    (if 0 ≤ y then Real.arctan (y / x) + Real.pi else Real.arctan (y / x) - Real.pi)
  else
    (if 0 < y then Real.pi / 2 else if y < 0 then -(Real.pi / 2) else 0)

/-- `getDistance` (lines 160-169): haversine distance in km, Earth radius
6371 km. -/
noncomputable def getDistance (coord1 coord2 : ℚ × ℚ) : ℝ :=
  let R : ℝ := 6371
  let dLat : ℝ := ((coord2.1 : ℝ) - (coord1.1 : ℝ)) * Real.pi / 180
  let dLon : ℝ := ((coord2.2 : ℝ) - (coord1.2 : ℝ)) * Real.pi / 180
  let a : ℝ := Real.sin (dLat / 2) * Real.sin (dLat / 2) +
    Real.cos ((coord1.1 : ℝ) * Real.pi / 180) * Real.cos ((coord2.1 : ℝ) * Real.pi / 180) *
      Real.sin (dLon / 2) * Real.sin (dLon / 2)
  let c : ℝ := 2 * atan2 (Real.sqrt a) (Real.sqrt (1 - a))
  R * c

/-- The cell radius used by `findNearbyResponders`:
`Math.ceil(maxDistance / (GRID_SIZE * 111))`. -/
def radiusCellsOf (maxDistance : ℚ) : ℤ := ⌈maxDistance / (GRID_SIZE * 111)⌉

/-- `findNearbyResponders` (lines 172-196): collect candidate ids from the
grid cells within `radiusCellsOf maxDistance` of the emergency's cell, then
keep the responders among the candidates that are free and within true
haversine distance. -/
noncomputable def findNearbyResponders (emergency : Emergency)
    (responders : List FirstResponder) (grid : SpatialGrid)
    (maxDistance : ℚ) (currentTime : ℚ) : List FirstResponder :=
  let emergencyCell := getGridCell emergency.coordinates
  let adjacentCells := getAdjacentCells emergencyCell (radiusCellsOf maxDistance)
  let nearbyIds : List ℕ := adjacentCells.flatMap grid
  responders.filter fun r => decide (r.id ∈ nearbyIds ∧ r.busyUntil ≤ currentTime ∧
    getDistance emergency.coordinates r.coordinates ≤ (maxDistance : ℝ))

/-- `initializeResponders` (lines 199-211): `RESPONDERS_COUNT` responders
with ids `0 .. RESPONDERS_COUNT - 1`, oracle-drawn coordinates, free
(`busyUntil = 0`), stored grid cell computed from the coordinates. -/
def initializeResponders (coordsOracle : ℕ → ℚ × ℚ) : List FirstResponder :=
  (List.range RESPONDERS_COUNT).map fun i =>
    { id := i
      coordinates := coordsOracle i
      busyUntil := 0
      gridCell := getGridCell (coordsOracle i) }

/-! ## Component state (Simulation.tsx lines 68-118)

All `useState` values and the refs that carry simulation data
(`simTimeRef`, `speedRef`, `emergencyRateRef`, `completedCallIdsRef`,
`completedReportIdsRef`) are fields of one record.  `simTime` and
`simTimeRef` always agree under atomic ticks and become one field; the
responder grids are pure functions of the responder lists (the effect at
lines 330-332 rebuilds them from the current lists) and are recomputed via
`buildSpatialGrid` where used.  Pending `setTimeout` completions are
modelled as lists of `DeferredCompletion` values capturing exactly what
each callback closure captures. -/

structure Stats where
  completed : ℕ
  canceled : ℕ
  selfCompleted : ℕ
  totalTime : ℚ
  totalProcessTime : ℚ
deriving DecidableEq, Repr

def Stats.zero : Stats := ⟨0, 0, 0, 0, 0⟩

structure DeferredCompletion where
  emergencyId : ℚ
  emergencyTimestamp : ℕ
  completionTime : ℚ
  processTime : ℚ
deriving DecidableEq, Repr

structure SimState where
  isRunning : Bool
  isPaused : Bool
  speed : ℚ
  simTime : ℕ
  results : List SimulationResult
  currentTrial : ℕ
  lastSelfCompleteCheck : ℕ
  callEmergencies : List Emergency
  reportEmergencies : List Emergency
  callResponders : List FirstResponder
  reportResponders : List FirstResponder
  callStats : Stats
  reportStats : Stats
  callQueue : List Emergency
  callOperatorsBusy : List ℚ
  emergencyRate : ℚ
  completedCallIds : List ℚ
  completedReportIds : List ℚ
  callTimers : List DeferredCompletion
  reportTimers : List DeferredCompletion
deriving DecidableEq

/-- Component mount state. -/
def initState : SimState where
  isRunning := false
  isPaused := false
  speed := 100
  simTime := 0
  results := []
  currentTrial := 0
  lastSelfCompleteCheck := 0
  callEmergencies := []
  reportEmergencies := []
  callResponders := []
  reportResponders := []
  callStats := Stats.zero
  reportStats := Stats.zero
  callQueue := []
  callOperatorsBusy := List.replicate CALL_OPERATORS_COUNT 0
  emergencyRate := 0
  completedCallIds := []
  completedReportIds := []
  callTimers := []
  reportTimers := []

/-! ## Random draws as oracles -/

/-- A `Math.random()` draw lies in `[0, 1)`. -/
def unitRoll (q : ℚ) : Prop := 0 ≤ q ∧ q < 1

def inBounds (c : ℚ × ℚ) : Prop :=
  HOUSTON_latMin ≤ c.1 ∧ c.1 ≤ HOUSTON_latMax ∧
    HOUSTON_lngMin ≤ c.2 ∧ c.2 ≤ HOUSTON_lngMax

structure StartDraws where
  responderCoords : ℕ → ℚ × ℚ
  additionalRoll : ℚ

def StartDraws.ok (o : StartDraws) : Prop :=
  (∀ i, inBounds (o.responderCoords i)) ∧ unitRoll o.additionalRoll

structure GenDraws where
  genRoll : ℚ
  coords : ℚ × ℚ
  idRoll : ℚ

def GenDraws.ok (o : GenDraws) : Prop :=
  unitRoll o.genRoll ∧ inBounds o.coords ∧ unitRoll o.idRoll

structure ProcessDraws where
  callProcRoll : ℕ → ℚ
  hangupRoll : ℕ → ℚ
  reportProcRoll : ℕ → ℚ
  selfRoll : ℕ → ℕ → ℚ

def ProcessDraws.ok (o : ProcessDraws) : Prop :=
  (∀ k, unitRoll (o.callProcRoll k)) ∧ (∀ k, unitRoll (o.hangupRoll k)) ∧
    (∀ k, unitRoll (o.reportProcRoll k)) ∧ (∀ i j, unitRoll (o.selfRoll i j))

/-! ## startSimulation (lines 336-361) -/

def startStep (s : SimState) (o : StartDraws) : SimState :=
  let newResponders := initializeResponders o.responderCoords
  let additionalCalls : ℤ := ⌊o.additionalRoll * 10000⌋ + 5000
  let totalCalls : ℚ := (BASE_CALLS : ℚ) + (additionalCalls : ℚ)
  { s with
    currentTrial := s.currentTrial + 1
    simTime := 0
    lastSelfCompleteCheck := 0
    callEmergencies := []
    reportEmergencies := []
    callResponders := newResponders
    reportResponders := newResponders
    callStats := Stats.zero
    reportStats := Stats.zero
    callQueue := []
    callOperatorsBusy := List.replicate CALL_OPERATORS_COUNT 0
    emergencyRate := totalCalls / ((SIMULATION_HOURS : ℚ) * 3600)
    completedCallIds := []
    completedReportIds := []
    isRunning := true
    isPaused := false }

/-! ## Generation interval tick (lines 364-412) -/

def genTick (s : SimState) (o : GenDraws) : SimState :=
  let newTime := s.simTime + 1
  let s1 := { s with simTime := newTime }
  if HORIZON ≤ newTime then { s1 with isRunning := false }
  else if o.genRoll < s.emergencyRate then
    let emergencyId : ℚ := (newTime : ℚ) * 1000 + ((⌊o.idRoll * 1000⌋ : ℤ) : ℚ)
    let newEmergency : Emergency :=
      { id := emergencyId
        coordinates := o.coords
        timestamp := newTime
        status := .pending
        waitTime := 0
        gridCell := getGridCell o.coords }
    { s1 with
      callEmergencies := s1.callEmergencies ++ [newEmergency]
      callQueue := s1.callQueue ++ [newEmergency]
      reportEmergencies :=
        s1.reportEmergencies ++ [{ newEmergency with id := emergencyId + 0.5 }] }
  else s1

/-! ## Result capture effect (lines 415-445) -/

def mkResult (trial : ℕ) (kind : PipelineKind) (st : Stats) : SimulationResult :=
  { trial := trial
    type := kind
    avgTimePerEmergency := if 0 < st.completed then st.totalTime / (st.completed : ℚ) else 0
    avgProcessTime := if 0 < st.completed then st.totalProcessTime / (st.completed : ℚ) else 0
    totalTimeSpent := st.totalTime
    selfCompleted := st.selfCompleted
    canceled := st.canceled
    totalCompleted := st.completed }

def captureStep (s : SimState) : SimState :=
  if HORIZON ≤ s.simTime ∧ 0 < s.currentTrial ∧ s.isRunning = false then
    if s.results.any fun r => decide (r.trial = s.currentTrial) then s
    else
      { s with results := s.results ++
          [mkResult s.currentTrial .report s.reportStats,
           mkResult s.currentTrial .call s.callStats] }
  else s

/-! ## Processing interval tick (lines 448-632) -/

/-- `emgs.map(e => e.id === id ? { ...e, status } : e)`. -/
def setStatus (l : List Emergency) (targetId : ℚ) (st : EStatus) : List Emergency :=
  l.map fun e => if e.id = targetId then { e with status := st } else e

def setAssignedWithResponder (l : List Emergency) (targetId : ℚ) (rid : ℕ) : List Emergency :=
  l.map fun e =>
    if e.id = targetId then { e with status := .assigned, assignedResponder := some rid } else e

/-- Lines 456-459: indices of operators with `busyUntil <= simTime`. -/
def freeOperatorIndices (ops : List ℚ) (now : ℕ) : List ℕ :=
  (ops.enum.filter fun p => decide (p.2 ≤ (now : ℚ))).map Prod.fst

/-- The dispatch `while` loop (lines 461-504): pop the queue front, pair it
with the next free operator, draw a processing time, mark the operator
busy, mark the emergency assigned, and schedule a deferred completion.
Consuming the two lists in lockstep realises
`maxToProcess = min(queue.length, freeOperators.length)`. -/
def dispatchLoop (now : ℕ) (roll : ℕ → ℚ) :
    List Emergency → List ℕ → ℕ → SimState → SimState
  | e :: q, opIdx :: ops, k, st =>
    let processTime :=
      CALL_PROCESS_TIME_min + roll k * (CALL_PROCESS_TIME_max - CALL_PROCESS_TIME_min)
    let completionTime : ℚ := (now : ℚ) + processTime
    let st1 := { st with
      callOperatorsBusy := st.callOperatorsBusy.set opIdx completionTime
      callEmergencies := setStatus st.callEmergencies e.id .assigned
      callTimers := st.callTimers ++
        [{ emergencyId := e.id, emergencyTimestamp := e.timestamp,
           completionTime := completionTime, processTime := processTime }] }
    dispatchLoop now roll q ops (k + 1) st1
  | q, _, _, st => { st with callQueue := q }

/-- The hangup pass (lines 506-517) over the queue left after dispatch:
an item older than `HANGUP_THRESHOLD` is canceled with probability
`HANGUP_CHANCE / 60` per tick and removed; survivors keep their order. -/
def hangupLoop (now : ℕ) (roll : ℕ → ℚ) : List Emergency → ℕ → SimState → SimState
  | e :: q, k, st =>
    if HANGUP_THRESHOLD < (now : ℚ) - (e.timestamp : ℚ) ∧ roll k < HANGUP_CHANCE / 60 then
      let st1 := { st with
        callStats := { st.callStats with canceled := st.callStats.canceled + 1 }
        callEmergencies := setStatus st.callEmergencies e.id .canceled }
      hangupLoop now roll q (k + 1) st1
    else
      let st1 := hangupLoop now roll q (k + 1) st
      { st1 with callQueue := e :: st1.callQueue }
  | [], _, st => { st with callQueue := [] }

/-- Lines 528-538: scan of `pendingReports` keeping the closest unclaimed
emergency within `REPORT_MAX_RANGE`; first-found wins ties
(`dist < closestDistance`), `closestDistance` starts at `Infinity`. -/
noncomputable def closerThan (dist : ℝ) : Option (Emergency × ℝ) → Bool
  | none => true
  | some p => decide (dist < p.2)

noncomputable def scanClosest (responder : FirstResponder) (claimed : List ℚ) :
    List Emergency → Option (Emergency × ℝ) → Option (Emergency × ℝ)
  | [], best => best
  | e :: tl, best =>
    if e.id ∈ claimed then scanClosest responder claimed tl best
    else
      let dist := getDistance responder.coordinates e.coordinates
      if closerThan dist best && decide (dist ≤ (REPORT_MAX_RANGE : ℝ)) then
        scanClosest responder claimed tl (some (e, dist))
      else scanClosest responder claimed tl best

/-- The report pipeline pass (lines 520-577): each free responder (computed
from the pre-tick snapshot) claims its closest pending unclaimed emergency,
is marked busy, the emergency is assigned to it, and a deferred completion
is scheduled.  `claimed` is `assignedThisTick`. -/
noncomputable def reportLoop (pre : SimState) (pendingReports : List Emergency)
    (roll : ℕ → ℚ) :
    List FirstResponder → List ℚ → ℕ → SimState → SimState
  | [], _, _, st => st
  | responder :: rest, claimed, k, st =>
    match scanClosest responder claimed pendingReports none with
    | some p =>
      let e := p.1
      let processTime :=
        REPORT_PROCESS_TIME_min + roll k * (REPORT_PROCESS_TIME_max - REPORT_PROCESS_TIME_min)
      let completionTime : ℚ := (pre.simTime : ℚ) + processTime
      let st1 := { st with
        reportResponders := st.reportResponders.map fun r =>
          if r.id = responder.id then { r with busyUntil := completionTime } else r
        reportEmergencies := setAssignedWithResponder st.reportEmergencies e.id responder.id
        reportTimers := st.reportTimers ++
          [{ emergencyId := e.id, emergencyTimestamp := e.timestamp,
             completionTime := completionTime, processTime := processTime }] }
      reportLoop pre pendingReports roll rest (e.id :: claimed) (k + 1) st1
    | none => reportLoop pre pendingReports roll rest claimed (k + 1) st

/-- Lines 598-623 inner loop: first nearby responder whose per-check roll
succeeds (`break` afterwards). -/
def firstSuccessIdx (roll : ℕ → ℚ) : List FirstResponder → ℕ → Option ℕ
  | [], _ => none
  | _ :: tl, j =>
    if roll j < CALL_SELF_COMPLETE_closeChance then some j else firstSuccessIdx roll tl (j + 1)

/-- The self-completion pass over the pre-tick pending call emergencies
(lines 579-625).  The `completedCallIdsRef` guard reads the live (evolving)
set; the population, grid and `simTime` come from the closure snapshot. -/
noncomputable def selfCompleteLoop (pre : SimState) (roll : ℕ → ℕ → ℚ) :
    List Emergency → ℕ → SimState → SimState
  | [], _, st => st
  | e :: tl, i, st =>
    if e.id ∈ st.completedCallIds then selfCompleteLoop pre roll tl (i + 1) st
    else
      let nearby := findNearbyResponders e pre.callResponders
        (buildSpatialGrid pre.callResponders) CALL_SELF_COMPLETE_closeRange (pre.simTime : ℚ)
      match firstSuccessIdx (roll i) nearby 0 with
      | none => selfCompleteLoop pre roll tl (i + 1) st
      | some _ =>
        let st1 := { st with
          completedCallIds := e.id :: st.completedCallIds
          callEmergencies := setStatus st.callEmergencies e.id .completed
          callQueue := st.callQueue.filter fun q => decide (¬ q.id = e.id)
          callStats := { st.callStats with
            selfCompleted := st.callStats.selfCompleted + 1
            completed := st.callStats.completed + 1
            totalTime := st.callStats.totalTime + ((pre.simTime : ℚ) - (e.timestamp : ℚ)) } }
        selfCompleteLoop pre roll tl (i + 1) st1

noncomputable def selfCompleteStep (pre : SimState) (roll : ℕ → ℕ → ℚ)
    (st : SimState) : SimState :=
  if (SELF_COMPLETE_CHECK_INTERVAL : ℤ) ≤ (pre.simTime : ℤ) - (pre.lastSelfCompleteCheck : ℤ) then
    let pendingCallEmergencies := pre.callEmergencies.filter fun e => decide (e.status = .pending)
    selfCompleteLoop pre roll pendingCallEmergencies 0
      { st with lastSelfCompleteCheck := pre.simTime }
  else st

/-- One processing-interval callback (lines 448-632), sub-steps in program
order; every closure read (`simTime`, `callOperatorsBusy`,
`reportEmergencies`, `reportResponders`, `callEmergencies`,
`callResponders`, `lastSelfCompleteCheck`) uses the pre-tick snapshot `s`,
every functional update composes on the evolving state. -/
noncomputable def processTick (s : SimState) (o : ProcessDraws) : SimState :=
  let freeOps := freeOperatorIndices s.callOperatorsBusy s.simTime
  let s1 := dispatchLoop s.simTime o.callProcRoll s.callQueue freeOps 0 s
  let s2 := hangupLoop s.simTime o.hangupRoll s1.callQueue 0 s1
  let pendingReports := s.reportEmergencies.filter fun e => decide (e.status = .pending)
  let freeResponders := s.reportResponders.filter fun r => decide (r.busyUntil ≤ (s.simTime : ℚ))
  let s3 := reportLoop s pendingReports o.reportProcRoll freeResponders [] 0 s2
  selfCompleteStep s o.selfRoll s3

/-! ## Deferred completion callbacks (lines 487-501 and 560-575) -/

def fireCallTimer (s : SimState) (i : ℕ) : SimState :=
  match s.callTimers[i]? with
  | none => s
  | some t =>
    let s1 := { s with callTimers := s.callTimers.eraseIdx i }
    if t.emergencyId ∈ s1.completedCallIds then s1
    else
      { s1 with
        completedCallIds := t.emergencyId :: s1.completedCallIds
        callStats := { s1.callStats with
          completed := s1.callStats.completed + 1
          totalTime := s1.callStats.totalTime + (t.completionTime - (t.emergencyTimestamp : ℚ))
          totalProcessTime := s1.callStats.totalProcessTime + t.processTime }
        callEmergencies := setStatus s1.callEmergencies t.emergencyId .completed }

def fireReportTimer (s : SimState) (i : ℕ) : SimState :=
  match s.reportTimers[i]? with
  | none => s
  | some t =>
    let s1 := { s with reportTimers := s.reportTimers.eraseIdx i }
    if t.emergencyId ∈ s1.completedReportIds then s1
    else
      { s1 with
        completedReportIds := t.emergencyId :: s1.completedReportIds
        reportStats := { s1.reportStats with
          selfCompleted := s1.reportStats.selfCompleted + 1
          completed := s1.reportStats.completed + 1
          totalTime := s1.reportStats.totalTime + (t.completionTime - (t.emergencyTimestamp : ℚ))
          totalProcessTime := s1.reportStats.totalProcessTime + t.processTime }
        reportEmergencies := setStatus s1.reportEmergencies t.emergencyId .completed }

/-! ## UI commands (lines 658-684) -/

def setSpeedHandler (s : SimState) (v : ℚ) : SimState := { s with speed := v }

def togglePauseStep (s : SimState) : SimState := { s with isPaused := ! s.isPaused }

/-! ## Event system -/

inductive Ev where
  | start (o : StartDraws)
  | gen (o : GenDraws)
  | process (o : ProcessDraws)
  | fireCall (i : ℕ)
  | fireReport (i : ℕ)
  | capture
  | setSpeed (v : ℚ)
  | togglePause

/-- One observable transition of the component.  The interval callbacks run
only while the effects are registered (`isRunning && !isPaused`); the Start
button is disabled while running; `setTimeout` callbacks may fire at any
time, in any order — the wall-clock delay is abstracted away. -/
inductive Step : SimState → Ev → SimState → Prop where
  | start (s : SimState) (o : StartDraws) :
      s.isRunning = false → o.ok → Step s (.start o) (startStep s o)
  | gen (s : SimState) (o : GenDraws) :
      s.isRunning = true → s.isPaused = false → o.ok → Step s (.gen o) (genTick s o)
  | process (s : SimState) (o : ProcessDraws) :
      s.isRunning = true → s.isPaused = false → o.ok → Step s (.process o) (processTick s o)
  | fireCall (s : SimState) (i : ℕ) : Step s (.fireCall i) (fireCallTimer s i)
  | fireReport (s : SimState) (i : ℕ) : Step s (.fireReport i) (fireReportTimer s i)
  | capture (s : SimState) : Step s .capture (captureStep s)
  | setSpeed (s : SimState) (v : ℚ) : Step s (.setSpeed v) (setSpeedHandler s v)
  | togglePause (s : SimState) : s.isRunning = true → Step s .togglePause (togglePauseStep s)

/-- A transition that is not a new `startSimulation` call. -/
def TrialStep (s s' : SimState) : Prop :=
  ∃ e, Step s e s' ∧ ∀ o, e ≠ Ev.start o

/-- States reachable within the trial started by pressing Start on a fresh
component with draw `o`. -/
def TrialReachable (o : StartDraws) (s : SimState) : Prop :=
  Relation.ReflTransGen TrialStep (startStep initState o) s

/-! ## Grid query characterization (claim C1) -/

theorem mem_intRange {lo hi x : ℤ} : x ∈ intRange lo hi ↔ lo ≤ x ∧ x ≤ hi := by
  simp only [intRange, List.mem_map, List.mem_range]
  constructor
  · rintro ⟨i, hi', rfl⟩
    omega
  · intro h
    refine ⟨(x - lo).toNat, ?_, ?_⟩ <;> omega

theorem mem_getAdjacentCells {cell : ℤ × ℤ} {radius : ℤ} {c : ℤ × ℤ} :
    c ∈ getAdjacentCells cell radius ↔
      |c.1 - cell.1| ≤ radius ∧ |c.2 - cell.2| ≤ radius := by
  simp only [getAdjacentCells, List.mem_flatMap, List.mem_map, mem_intRange]
  constructor
  · rintro ⟨dLat, ⟨h1, h2⟩, ⟨dLng, ⟨h3, h4⟩, rfl⟩⟩
    constructor <;> simp [abs_le] <;> omega
  · rintro ⟨h1, h2⟩
    rw [abs_le] at h1 h2
    refine ⟨c.1 - cell.1, by omega, c.2 - cell.2, by omega, ?_⟩
    simp [Prod.ext_iff]

theorem mem_buildSpatialGrid {rs : List FirstResponder} {cell : ℤ × ℤ} {i : ℕ} :
    i ∈ buildSpatialGrid rs cell ↔ ∃ r ∈ rs, r.id = i ∧ r.gridCell = cell := by
  simp only [buildSpatialGrid, List.mem_map, List.mem_filter, decide_eq_true_eq]
  constructor
  · rintro ⟨r, ⟨hr, hc⟩, rfl⟩
    exact ⟨r, hr, rfl, hc⟩
  · rintro ⟨r, hr, rfl, hc⟩
    exact ⟨r, ⟨hr, hc⟩, rfl⟩

/-- Chebyshev distance between grid cells. -/
def chebDist (a b : ℤ × ℤ) : ℤ := max |a.1 - b.1| |a.2 - b.2|

/-- What `findNearbyResponders` actually returns, for a population with
distinct ids and consistently stored grid cells, queried against the grid
built from that same population: exactly the responders that are free,
within true haversine range, АND whose grid cell lies within
`radiusCellsOf maxDistance` Chebyshev cells of the emergency's cell. -/
theorem mem_findNearbyResponders {em : Emergency} {rs : List FirstResponder}
    {maxD now : ℚ} {r : FirstResponder}
    (hnodup : (rs.map FirstResponder.id).Nodup)
    (hcells : ∀ r' ∈ rs, r'.gridCell = getGridCell r'.coordinates) :
    r ∈ findNearbyResponders em rs (buildSpatialGrid rs) maxD now ↔
      r ∈ rs ∧
        chebDist (getGridCell r.coordinates) (getGridCell em.coordinates) ≤ radiusCellsOf maxD ∧
        r.busyUntil ≤ now ∧
        getDistance em.coordinates r.coordinates ≤ (maxD : ℝ) := by
  simp only [findNearbyResponders, List.mem_filter, decide_eq_true_eq]
  constructor
  · rintro ⟨hr, hid, hbusy, hdist⟩
    refine ⟨hr, ?_, hbusy, hdist⟩
    rcases List.mem_flatMap.mp hid with ⟨c, hc, hic⟩
    rcases mem_buildSpatialGrid.mp hic with ⟨r', hr', hid', hcell'⟩
    have hrr : r' = r := List.inj_on_of_nodup_map hnodup hr' hr hid'
    rcases mem_getAdjacentCells.mp hc with ⟨h1, h2⟩
    simp only [chebDist, max_le_iff]
    rw [← hcells r hr, ← hrr, hcell']
    exact ⟨h1, h2⟩
  · rintro ⟨hr, hcheb, hbusy, hdist⟩
    refine ⟨hr, ?_, hbusy, hdist⟩
    refine List.mem_flatMap.mpr ⟨getGridCell r.coordinates, ?_, ?_⟩
    · refine mem_getAdjacentCells.mpr ?_
      simp only [chebDist, max_le_iff] at hcheb
      exact hcheb
    · exact mem_buildSpatialGrid.mpr ⟨r, hr, rfl, hcells r hr⟩

/-! ## Analytic facts about the haversine distance -/

theorem arctan_le_self {t : ℝ} (ht : 0 ≤ t) : Real.arctan t ≤ t := by
  rcases eq_or_lt_of_le ht with h | h
  · rw [← h, Real.arctan_zero]
  · have h1 : 0 < Real.arctan t := by
      rw [← Real.arctan_zero]
      exact Real.arctan_strictMono h
    have h2 := Real.lt_tan h1 (Real.arctan_lt_pi_div_two t)
    rw [Real.tan_arctan] at h2
    exact h2.le

/-- Distance of a point from itself is zero: the haversine `a` collapses to
`0` and `atan2 0 1 = 0`. -/
theorem getDistance_self (c : ℚ × ℚ) : getDistance c c = 0 := by
  unfold getDistance
  simp only [sub_self, zero_mul, zero_div, Real.sin_zero, mul_zero, zero_add, add_zero,
    Real.sqrt_zero, sub_zero, Real.sqrt_one]
  rw [atan2, if_pos one_pos]
  simp [Real.arctan_zero]

/-- Generic bound for the haversine tail: if the `a` term satisfies
`a * ((12742 / M)^2 + 1) ≤ 1` then the distance is at most `M` km. -/
theorem core_bound (A M : ℝ) (hM : 0 < M) (hA0 : 0 ≤ A)
    (hA : A * ((12742 / M) ^ 2 + 1) ≤ 1) :
    6371 * (2 * atan2 (Real.sqrt A) (Real.sqrt (1 - A))) ≤ M := by
  have hk : 0 < (12742 / M) ^ 2 := by positivity
  have hA1 : A < 1 := by nlinarith
  have h1A : 0 < 1 - A := by linarith
  have hsq : 0 < Real.sqrt (1 - A) := Real.sqrt_pos.mpr h1A
  rw [atan2, if_pos hsq]
  have ht0 : 0 ≤ Real.sqrt A / Real.sqrt (1 - A) :=
    div_nonneg (Real.sqrt_nonneg _) (Real.sqrt_nonneg _)
  have harct := arctan_le_self ht0
  have htM : Real.sqrt A / Real.sqrt (1 - A) ≤ M / 12742 := by
    rw [← Real.sqrt_div hA0]
    have h2 : A / (1 - A) ≤ (M / 12742) ^ 2 := by
      rw [div_le_iff₀ h1A]
      have hkk : (12742 / M) ^ 2 * (M / 12742) ^ 2 = 1 := by
        field_simp
      nlinarith [mul_le_mul_of_nonneg_right hA (sq_nonneg (M / 12742))]
    calc Real.sqrt (A / (1 - A)) ≤ Real.sqrt ((M / 12742) ^ 2) := Real.sqrt_le_sqrt h2
    _ = M / 12742 := Real.sqrt_sq (by positivity)
  calc 6371 * (2 * Real.arctan (Real.sqrt A / Real.sqrt (1 - A)))
      ≤ 6371 * (2 * (M / 12742)) := by nlinarith
  _ = M := by ring

/-- For two points on the same latitude the haversine `a` is a perfect
square of `cos lat * sin (dLon/2)`. -/
theorem getDistance_same_lat (c1 c2 : ℚ × ℚ) (hlat : c1.1 = c2.1) :
    getDistance c1 c2 = 6371 * (2 * atan2
      (Real.sqrt ((Real.cos ((c1.1 : ℝ) * Real.pi / 180) *
        Real.sin ((((c2.2 : ℝ) - (c1.2 : ℝ)) * Real.pi / 180) / 2)) ^ 2))
      (Real.sqrt (1 - (Real.cos ((c1.1 : ℝ) * Real.pi / 180) *
        Real.sin ((((c2.2 : ℝ) - (c1.2 : ℝ)) * Real.pi / 180) / 2)) ^ 2))) := by
  obtain ⟨a1, b1⟩ := c1
  obtain ⟨a2, b2⟩ := c2
  simp only at hlat
  subst hlat
  unfold getDistance
  simp only [sub_self, zero_mul, zero_div, Real.sin_zero, mul_zero, zero_add, add_zero]
  ring_nf

/-- The two points of the C1 counterexample, latitude `29.5`, longitudes
`-95.0` and `-95.0201`, are less than 2 km apart: the haversine `a` term is
at most `(0.87112 * 0.00017541)^2` which beats the `core_bound` budget for
2 km. -/
theorem getDistance_cex_le_two :
    getDistance ((59 : ℚ)/2, (-95 : ℚ)) ((59 : ℚ)/2, (-950201 : ℚ)/10000) ≤ 2 := by
  rw [getDistance_same_lat ((59 : ℚ)/2, (-95 : ℚ)) ((59 : ℚ)/2, (-950201 : ℚ)/10000) rfl]
  apply core_bound _ _ (by norm_num) (sq_nonneg _)
  have hπu := Real.pi_lt_d6
  have hπl := Real.pi_gt_d6
  have hπ0 := Real.pi_pos
  have hxval : (((59 : ℚ)/2 : ℚ) : ℝ) * Real.pi / 180 = 59 * Real.pi / 360 := by
    push_cast
    ring
  have hyval : (((((-950201 : ℚ)/10000 : ℚ)) : ℝ) - (((-95 : ℚ)) : ℝ)) * Real.pi / 180 / 2
      = -(201 * Real.pi / 3600000) := by
    push_cast
    ring
  rw [hxval, hyval]
  set x : ℝ := 59 * Real.pi / 360 with hxdef
  set y : ℝ := -(201 * Real.pi / 3600000) with hydef
  have hxl : (0.514872 : ℝ) ≤ x := by rw [hxdef]; nlinarith
  have hxu : x ≤ 0.5148722 := by rw [hxdef]; nlinarith
  have hx0 : 0 ≤ x := by linarith
  have hcos_le : Real.cos x ≤ 0.87112 := by
    have h1 : |x| ≤ 1 := by rw [abs_of_nonneg hx0]; linarith
    have h2 := Real.cos_bound h1
    rw [abs_sub_le_iff] at h2
    have h3 : Real.cos x ≤ 1 - x ^ 2 / 2 + |x| ^ 4 * (5 / 96) := by linarith [h2.1]
    rw [abs_of_nonneg hx0] at h3
    have hx2l : (0.514872 : ℝ) ^ 2 ≤ x ^ 2 := by nlinarith
    have hx2u : x ^ 2 ≤ (0.5148722 : ℝ) ^ 2 := by nlinarith
    have hx4 : x ^ 4 ≤ (0.5148722 : ℝ) ^ 4 := by nlinarith [sq_nonneg x]
    nlinarith [h3, hx2l, hx4]
  have hcos_nonneg : 0 ≤ Real.cos x := by
    have hxpi2 : x ≤ Real.pi / 2 := by nlinarith
    have hxneg : -(Real.pi / 2) ≤ x := by nlinarith
    exact Real.cos_nonneg_of_mem_Icc ⟨hxneg, hxpi2⟩
  have hyabs : |y| ≤ 0.00017541 := by
    rw [hydef, abs_neg, abs_of_nonneg (by positivity)]
    nlinarith
  have hsin : |Real.sin y| ≤ |y| := Real.abs_sin_le_abs
  have hsin2 : Real.sin y ^ 2 ≤ (0.00017541 : ℝ) ^ 2 := by
    have h4 : |Real.sin y| ≤ 0.00017541 := le_trans hsin hyabs
    calc Real.sin y ^ 2 = |Real.sin y| ^ 2 := (sq_abs _).symm
    _ ≤ (0.00017541 : ℝ) ^ 2 := by nlinarith [abs_nonneg (Real.sin y)]
  have hA : (Real.cos x * Real.sin y) ^ 2 ≤ ((0.87112 : ℝ) * 0.00017541) ^ 2 := by
    rw [mul_pow, mul_pow]
    apply mul_le_mul ?_ hsin2 (sq_nonneg _) (by positivity)
    nlinarith [hcos_le, hcos_nonneg]
  calc (Real.cos x * Real.sin y) ^ 2 * ((12742 / 2) ^ 2 + 1)
      ≤ ((0.87112 : ℝ) * 0.00017541) ^ 2 * ((12742 / 2) ^ 2 + 1) := by
        apply mul_le_mul_of_nonneg_right hA (by norm_num)
  _ ≤ 1 := by norm_num

/-! ## Claim C1 -/

/-- Query emergency of the C1 counterexample at `(29.5, -95.0)` (inside the
Houston bounds). -/
def cexEmergency : Emergency :=
  { id := 1000
    coordinates := ((59 : ℚ)/2, (-95 : ℚ))
    timestamp := 0
    status := .pending
    waitTime := 0
    gridCell := getGridCell ((59 : ℚ)/2, (-95 : ℚ)) }

/-- Free responder of the C1 counterexample at `(29.5, -95.0201)`: under
2 km away from `cexEmergency` but two longitude cells away, outside the
1-cell search radius computed for `maxDistance = 2`. -/
def cexResponder : FirstResponder :=
  { id := 0
    coordinates := ((59 : ℚ)/2, (-950201 : ℚ)/10000)
    busyUntil := 0
    gridCell := getGridCell ((59 : ℚ)/2, (-950201 : ℚ)/10000) }

theorem cexResponder_cell : cexResponder.gridCell = (1475, -4752) := by
  show getGridCell ((59 : ℚ)/2, (-950201 : ℚ)/10000) = (1475, -4752)
  norm_num [getGridCell, GRID_SIZE]

theorem cexEmergency_cell : getGridCell cexEmergency.coordinates = (1475, -4750) := by
  show getGridCell ((59 : ℚ)/2, (-95 : ℚ)) = (1475, -4750)
  norm_num [getGridCell, GRID_SIZE]

theorem radiusCells_two : radiusCellsOf 2 = 1 := by
  rw [radiusCellsOf, GRID_SIZE, Int.ceil_eq_iff]
  norm_num

theorem findNearby_cex_empty :
    findNearbyResponders cexEmergency [cexResponder]
      (buildSpatialGrid [cexResponder]) 2 0 = [] := by
  rw [findNearbyResponders, List.filter_eq_nil_iff]
  intro a ha
  rw [List.mem_singleton] at ha
  subst ha
  rw [Bool.not_eq_true, decide_eq_false_iff_not]
  rintro ⟨h1, -, -⟩
  rcases List.mem_flatMap.mp h1 with ⟨c, hc, hmem⟩
  rcases mem_buildSpatialGrid.mp hmem with ⟨r', hr', hid', hcell'⟩
  rw [List.mem_singleton] at hr'
  subst hr'
  rw [← hcell', cexResponder_cell, cexEmergency_cell, radiusCells_two] at hc
  rcases mem_getAdjacentCells.mp hc with ⟨hA, hB⟩
  norm_num at hB

/-- Claim C1 is false as stated: `cexResponder` is free at time `0`, lies
within the queried `maxDistance` of 2 km of `cexEmergency`, and is in the
population whose grid is queried, yet `findNearbyResponders` omits it.
The cell radius `ceil(2 / (0.02 * 111)) = 1` under-covers longitude at
latitude 29.5°, where one degree of longitude is about `111 * cos 29.5°
≈ 96.8` km, so the responder sits two cells west while being 1.95 km away. -/
theorem claim_C1_counterexample :
    cexResponder.busyUntil ≤ (0 : ℚ) ∧
    getDistance cexEmergency.coordinates cexResponder.coordinates ≤ ((2 : ℚ) : ℝ) ∧
    cexResponder ∈ [cexResponder] ∧
    cexResponder ∉ findNearbyResponders cexEmergency [cexResponder]
      (buildSpatialGrid [cexResponder]) 2 0 := by
  refine ⟨le_refl 0, ?_, List.mem_singleton_self _, ?_⟩
  · have h := getDistance_cex_le_two
    have h2 : ((2 : ℚ) : ℝ) = (2 : ℝ) := by norm_num
    rw [h2]
    exact h
  · rw [findNearby_cex_empty]
    exact List.not_mem_nil _

/-- Claim C1, amended: for a responder population with distinct ids and
consistently stored grid cells, `findNearbyResponders` queried against the
grid built from that population returns exactly the responders that are
free (`busyUntil ≤ now`), within true haversine distance `maxDistance`,
and whose grid cell lies within `ceil(maxDistance / (GRID_SIZE * 111))`
cells (Chebyshev distance) of the emergency's cell.  The third condition
is the amendment: a free in-range responder outside that cell block is
omitted (see `claim_C1_counterexample`). -/
theorem claim_C1_amended {em : Emergency} {rs : List FirstResponder}
    {maxD now : ℚ} {r : FirstResponder}
    (hnodup : (rs.map FirstResponder.id).Nodup)
    (hcells : ∀ r' ∈ rs, r'.gridCell = getGridCell r'.coordinates) :
    r ∈ findNearbyResponders em rs (buildSpatialGrid rs) maxD now ↔
      r ∈ rs ∧
        chebDist (getGridCell r.coordinates) (getGridCell em.coordinates) ≤ radiusCellsOf maxD ∧
        r.busyUntil ≤ now ∧
        getDistance em.coordinates r.coordinates ≤ (maxD : ℝ) :=
  mem_findNearbyResponders hnodup hcells

theorem claim_C1_witness :
    (([cexResponder].map FirstResponder.id).Nodup ∧
      ∀ r' ∈ [cexResponder], r'.gridCell = getGridCell r'.coordinates) ∧
    (cexResponder ∈ findNearbyResponders cexEmergency [cexResponder]
        (buildSpatialGrid [cexResponder]) 2 0 ↔
      cexResponder ∈ [cexResponder] ∧
        chebDist (getGridCell cexResponder.coordinates) (getGridCell cexEmergency.coordinates) ≤
          radiusCellsOf 2 ∧
        cexResponder.busyUntil ≤ 0 ∧
        getDistance cexEmergency.coordinates cexResponder.coordinates ≤ ((2 : ℚ) : ℝ)) :=
  ⟨⟨List.nodup_singleton _, fun r' hr' => by
      rw [List.mem_singleton] at hr'
      rw [hr']
      rfl⟩,
    claim_C1_amended (List.nodup_singleton _) (fun r' hr' => by
      rw [List.mem_singleton] at hr'
      rw [hr']
      rfl)⟩

/-! ## Status bookkeeping toolkit -/

/-- Status of the emergency with a given id (first match, as the rendering
and the `map`-based updates agree on lists with distinct ids). -/
def statusById (l : List Emergency) (i : ℚ) : Option EStatus :=
  (l.find? fun e => decide (e.id = i)).map Emergency.status

theorem setStatus_map_id (l : List Emergency) (tid : ℚ) (st : EStatus) :
    (setStatus l tid st).map Emergency.id = l.map Emergency.id := by
  induction l with
  | nil => rfl
  | cons e tl ih =>
    simp only [setStatus, List.map_cons] at ih ⊢
    split
    · simpa using ih
    · simpa using ih

theorem setAssigned_map_id (l : List Emergency) (tid : ℚ) (rid : ℕ) :
    (setAssignedWithResponder l tid rid).map Emergency.id = l.map Emergency.id := by
  induction l with
  | nil => rfl
  | cons e tl ih =>
    simp only [setAssignedWithResponder, List.map_cons] at ih ⊢
    split
    · simpa using ih
    · simpa using ih

theorem setStatus_length (l : List Emergency) (tid : ℚ) (st : EStatus) :
    (setStatus l tid st).length = l.length := by
  simp [setStatus]

theorem statusById_setStatus (l : List Emergency) (tid : ℚ) (st' : EStatus) (i : ℚ) :
    statusById (setStatus l tid st') i =
      if i = tid then (statusById l i).map (fun _ => st') else statusById l i := by
  induction l with
  | nil =>
    simp only [setStatus, statusById, List.map_nil, List.find?_nil, Option.map_none']
    split <;> rfl
  | cons e tl ih =>
    have hsplit : setStatus (e :: tl) tid st' =
        (if e.id = tid then { e with status := st' } else e) :: setStatus tl tid st' := rfl
    simp only [statusById] at ih ⊢
    rw [hsplit]
    by_cases hei : e.id = i
    · have hhead : ((if e.id = tid then { e with status := st' } else e) : Emergency).id = i := by
        split <;> exact hei
      rw [List.find?_cons_of_pos _ (by simpa using hhead),
        List.find?_cons_of_pos _ (by simpa using hei)]
      by_cases hit : i = tid
      · rw [if_pos hit, if_pos (hei.trans hit)]
        rfl
      · rw [if_neg (fun h => hit (hei.symm.trans h)), if_neg hit]
    · have hhead : ¬ ((if e.id = tid then { e with status := st' } else e) : Emergency).id = i := by
        split <;> exact hei
      rw [List.find?_cons_of_neg _ (by simpa using hhead),
        List.find?_cons_of_neg _ (by simpa using hei)]
      exact ih

theorem statusById_of_mem {l : List Emergency} (hnodup : (l.map Emergency.id).Nodup)
    {e : Emergency} (he : e ∈ l) : statusById l e.id = some e.status := by
  induction l with
  | nil => cases he
  | cons h tl ih =>
    rcases List.mem_cons.mp he with rfl | htl
    · rw [statusById, List.find?_cons_of_pos _ (by simp)]
      rfl
    · by_cases hh : h.id = e.id
      · exfalso
        rw [List.map_cons, List.nodup_cons] at hnodup
        exact hnodup.1 (hh ▸ List.mem_map_of_mem Emergency.id htl)
      · rw [List.map_cons, List.nodup_cons] at hnodup
        rw [statusById, List.find?_cons_of_neg _ (by simpa using hh)]
        exact ih hnodup.2 htl

/-! ## Frame and effect lemmas for the dispatch loop -/

theorem dispatchLoop_frame (now : ℕ) (roll : ℕ → ℚ) :
    ∀ (q : List Emergency) (ops : List ℕ) (k : ℕ) (st : SimState),
      (dispatchLoop now roll q ops k st).isRunning = st.isRunning ∧
      (dispatchLoop now roll q ops k st).isPaused = st.isPaused ∧
      (dispatchLoop now roll q ops k st).speed = st.speed ∧
      (dispatchLoop now roll q ops k st).simTime = st.simTime ∧
      (dispatchLoop now roll q ops k st).results = st.results ∧
      (dispatchLoop now roll q ops k st).currentTrial = st.currentTrial ∧
      (dispatchLoop now roll q ops k st).lastSelfCompleteCheck = st.lastSelfCompleteCheck ∧
      (dispatchLoop now roll q ops k st).reportEmergencies = st.reportEmergencies ∧
      (dispatchLoop now roll q ops k st).callResponders = st.callResponders ∧
      (dispatchLoop now roll q ops k st).reportResponders = st.reportResponders ∧
      (dispatchLoop now roll q ops k st).callStats = st.callStats ∧
      (dispatchLoop now roll q ops k st).reportStats = st.reportStats ∧
      (dispatchLoop now roll q ops k st).emergencyRate = st.emergencyRate ∧
      (dispatchLoop now roll q ops k st).completedCallIds = st.completedCallIds ∧
      (dispatchLoop now roll q ops k st).completedReportIds = st.completedReportIds ∧
      (dispatchLoop now roll q ops k st).reportTimers = st.reportTimers := by
  intro q
  induction q with
  | nil =>
    intro ops k st
    cases ops <;> simp [dispatchLoop]
  | cons e tl ih =>
    intro ops k st
    cases ops with
    | nil => simp [dispatchLoop]
    | cons op rest =>
      simp only [dispatchLoop]
      exact ih rest (k + 1) _

theorem dispatchLoop_ids (now : ℕ) (roll : ℕ → ℚ) :
    ∀ (q : List Emergency) (ops : List ℕ) (k : ℕ) (st : SimState),
      (dispatchLoop now roll q ops k st).callEmergencies.map Emergency.id =
        st.callEmergencies.map Emergency.id := by
  intro q
  induction q with
  | nil =>
    intro ops k st
    cases ops <;> simp [dispatchLoop]
  | cons e tl ih =>
    intro ops k st
    cases ops with
    | nil => simp [dispatchLoop]
    | cons op rest =>
      simp only [dispatchLoop]
      rw [ih rest (k + 1) _]
      simp [setStatus_map_id]

theorem dispatchLoop_queue_suffix (now : ℕ) (roll : ℕ → ℚ) :
    ∀ (q : List Emergency) (ops : List ℕ) (k : ℕ) (st : SimState),
      (dispatchLoop now roll q ops k st).callQueue <:+ q := by
  intro q
  induction q with
  | nil =>
    intro ops k st
    cases ops <;> simp [dispatchLoop]
  | cons e tl ih =>
    intro ops k st
    cases ops with
    | nil => simp [dispatchLoop]
    | cons op rest =>
      simp only [dispatchLoop]
      exact (ih rest (k + 1) _).trans (List.suffix_cons e tl)

theorem dispatchLoop_status (now : ℕ) (roll : ℕ → ℚ) :
    ∀ (q : List Emergency) (ops : List ℕ) (k : ℕ) (st : SimState) (i : ℚ),
      statusById (dispatchLoop now roll q ops k st).callEmergencies i =
          statusById st.callEmergencies i ∨
        statusById (dispatchLoop now roll q ops k st).callEmergencies i = some .assigned := by
  intro q
  induction q with
  | nil =>
    intro ops k st i
    cases ops <;> simp [dispatchLoop]
  | cons e tl ih =>
    intro ops k st i
    cases ops with
    | nil => simp [dispatchLoop]
    | cons op rest =>
      simp only [dispatchLoop]
      rcases ih rest (k + 1) _ i with h | h
      · rw [h]
        simp only [statusById_setStatus]
        by_cases hit : i = e.id
        · rw [if_pos hit]
          cases statusById st.callEmergencies i with
          | none => left; rfl
          | some s => right; rfl
        · rw [if_neg hit]
          left
          rfl
      · right
        exact h

/-! ## Frame and effect lemmas for the hangup pass -/

theorem hangupLoop_frame (now : ℕ) (roll : ℕ → ℚ) :
    ∀ (q : List Emergency) (k : ℕ) (st : SimState),
      (hangupLoop now roll q k st).isRunning = st.isRunning ∧
      (hangupLoop now roll q k st).isPaused = st.isPaused ∧
      (hangupLoop now roll q k st).speed = st.speed ∧
      (hangupLoop now roll q k st).simTime = st.simTime ∧
      (hangupLoop now roll q k st).results = st.results ∧
      (hangupLoop now roll q k st).currentTrial = st.currentTrial ∧
      (hangupLoop now roll q k st).lastSelfCompleteCheck = st.lastSelfCompleteCheck ∧
      (hangupLoop now roll q k st).reportEmergencies = st.reportEmergencies ∧
      (hangupLoop now roll q k st).callResponders = st.callResponders ∧
      (hangupLoop now roll q k st).reportResponders = st.reportResponders ∧
      (hangupLoop now roll q k st).reportStats = st.reportStats ∧
      (hangupLoop now roll q k st).emergencyRate = st.emergencyRate ∧
      (hangupLoop now roll q k st).completedCallIds = st.completedCallIds ∧
      (hangupLoop now roll q k st).completedReportIds = st.completedReportIds ∧
      (hangupLoop now roll q k st).reportTimers = st.reportTimers ∧
      (hangupLoop now roll q k st).callTimers = st.callTimers ∧
      (hangupLoop now roll q k st).callOperatorsBusy = st.callOperatorsBusy ∧
      (hangupLoop now roll q k st).callStats.completed = st.callStats.completed ∧
      (hangupLoop now roll q k st).callStats.selfCompleted = st.callStats.selfCompleted ∧
      (hangupLoop now roll q k st).callStats.totalTime = st.callStats.totalTime ∧
      (hangupLoop now roll q k st).callStats.totalProcessTime = st.callStats.totalProcessTime := by
  intro q
  induction q with
  | nil =>
    intro k st
    simp [hangupLoop]
  | cons e tl ih =>
    intro k st
    simp only [hangupLoop]
    split
    · exact ih (k + 1) _
    · have h := ih (k + 1) st
      simp only []
      exact h

theorem hangupLoop_ids (now : ℕ) (roll : ℕ → ℚ) :
    ∀ (q : List Emergency) (k : ℕ) (st : SimState),
      (hangupLoop now roll q k st).callEmergencies.map Emergency.id =
        st.callEmergencies.map Emergency.id := by
  intro q
  induction q with
  | nil =>
    intro k st
    simp [hangupLoop]
  | cons e tl ih =>
    intro k st
    simp only [hangupLoop]
    split
    · rw [ih (k + 1) _]
      simp [setStatus_map_id]
    · exact ih (k + 1) st

theorem hangupLoop_canceled_source (now : ℕ) (roll : ℕ → ℚ) :
    ∀ (q : List Emergency) (k : ℕ) (st : SimState) (i : ℚ),
      statusById (hangupLoop now roll q k st).callEmergencies i = some .canceled →
        statusById st.callEmergencies i = some .canceled ∨
          ∃ e ∈ q, e.id = i ∧ HANGUP_THRESHOLD < (now : ℚ) - (e.timestamp : ℚ) := by
  intro q
  induction q with
  | nil =>
    intro k st i h
    left
    simpa [hangupLoop] using h
  | cons e tl ih =>
    intro k st i h
    rw [hangupLoop] at h
    by_cases hcond : HANGUP_THRESHOLD < (now : ℚ) - (e.timestamp : ℚ) ∧
        roll k < HANGUP_CHANCE / 60
    · rw [if_pos hcond] at h
      rcases ih (k + 1) _ i h with h2 | h2
      · rw [statusById_setStatus] at h2
        by_cases hie : i = e.id
        · right
          exact ⟨e, List.mem_cons_self e tl, hie.symm, hcond.1⟩
        · rw [if_neg hie] at h2
          left
          exact h2
      · right
        rcases h2 with ⟨e', he', hid, hage⟩
        exact ⟨e', List.mem_cons_of_mem e he', hid, hage⟩
    · rw [if_neg hcond] at h
      simp only [] at h
      rcases ih (k + 1) st i h with h2 | h2
      · left
        exact h2
      · right
        rcases h2 with ⟨e', he', hid, hage⟩
        exact ⟨e', List.mem_cons_of_mem e he', hid, hage⟩

/-! ## Frame lemmas for the report pass -/

theorem reportLoop_frame (pre : SimState) (pending : List Emergency) (roll : ℕ → ℚ) :
    ∀ (rs : List FirstResponder) (claimed : List ℚ) (k : ℕ) (st : SimState),
      (reportLoop pre pending roll rs claimed k st).isRunning = st.isRunning ∧
      (reportLoop pre pending roll rs claimed k st).isPaused = st.isPaused ∧
      (reportLoop pre pending roll rs claimed k st).speed = st.speed ∧
      (reportLoop pre pending roll rs claimed k st).simTime = st.simTime ∧
      (reportLoop pre pending roll rs claimed k st).results = st.results ∧
      (reportLoop pre pending roll rs claimed k st).currentTrial = st.currentTrial ∧
      (reportLoop pre pending roll rs claimed k st).lastSelfCompleteCheck =
        st.lastSelfCompleteCheck ∧
      (reportLoop pre pending roll rs claimed k st).callEmergencies = st.callEmergencies ∧
      (reportLoop pre pending roll rs claimed k st).callQueue = st.callQueue ∧
      (reportLoop pre pending roll rs claimed k st).callResponders = st.callResponders ∧
      (reportLoop pre pending roll rs claimed k st).callStats = st.callStats ∧
      (reportLoop pre pending roll rs claimed k st).reportStats = st.reportStats ∧
      (reportLoop pre pending roll rs claimed k st).emergencyRate = st.emergencyRate ∧
      (reportLoop pre pending roll rs claimed k st).completedCallIds = st.completedCallIds ∧
      (reportLoop pre pending roll rs claimed k st).completedReportIds =
        st.completedReportIds ∧
      (reportLoop pre pending roll rs claimed k st).callTimers = st.callTimers ∧
      (reportLoop pre pending roll rs claimed k st).callOperatorsBusy =
        st.callOperatorsBusy := by
  intro rs
  induction rs with
  | nil =>
    intro claimed k st
    simp [reportLoop]
  | cons r rest ih =>
    intro claimed k st
    rw [reportLoop]
    cases scanClosest r claimed pending none with
    | none => exact ih claimed (k + 1) st
    | some p => exact ih (p.1.id :: claimed) (k + 1) _

/-! ## Frame and effect lemmas for the self-completion pass -/

theorem selfCompleteLoop_frame (pre : SimState) (roll : ℕ → ℕ → ℚ) :
    ∀ (l : List Emergency) (i : ℕ) (st : SimState),
      (selfCompleteLoop pre roll l i st).isRunning = st.isRunning ∧
      (selfCompleteLoop pre roll l i st).isPaused = st.isPaused ∧
      (selfCompleteLoop pre roll l i st).speed = st.speed ∧
      (selfCompleteLoop pre roll l i st).simTime = st.simTime ∧
      (selfCompleteLoop pre roll l i st).results = st.results ∧
      (selfCompleteLoop pre roll l i st).currentTrial = st.currentTrial ∧
      (selfCompleteLoop pre roll l i st).lastSelfCompleteCheck = st.lastSelfCompleteCheck ∧
      (selfCompleteLoop pre roll l i st).reportEmergencies = st.reportEmergencies ∧
      (selfCompleteLoop pre roll l i st).callResponders = st.callResponders ∧
      (selfCompleteLoop pre roll l i st).reportResponders = st.reportResponders ∧
      (selfCompleteLoop pre roll l i st).reportStats = st.reportStats ∧
      (selfCompleteLoop pre roll l i st).emergencyRate = st.emergencyRate ∧
      (selfCompleteLoop pre roll l i st).completedReportIds = st.completedReportIds ∧
      (selfCompleteLoop pre roll l i st).reportTimers = st.reportTimers ∧
      (selfCompleteLoop pre roll l i st).callTimers = st.callTimers ∧
      (selfCompleteLoop pre roll l i st).callOperatorsBusy = st.callOperatorsBusy ∧
      (selfCompleteLoop pre roll l i st).callStats.canceled = st.callStats.canceled ∧
      (selfCompleteLoop pre roll l i st).callStats.totalProcessTime =
        st.callStats.totalProcessTime := by
  intro l
  induction l with
  | nil =>
    intro i st
    simp [selfCompleteLoop]
  | cons e tl ih =>
    intro i st
    rw [selfCompleteLoop]
    dsimp only
    split
    · exact ih (i + 1) st
    · cases firstSuccessIdx (roll i)
        (findNearbyResponders e pre.callResponders (buildSpatialGrid pre.callResponders)
          CALL_SELF_COMPLETE_closeRange (pre.simTime : ℚ)) 0 with
      | none => exact ih (i + 1) st
      | some j => exact ih (i + 1) _

theorem selfCompleteLoop_ids (pre : SimState) (roll : ℕ → ℕ → ℚ) :
    ∀ (l : List Emergency) (i : ℕ) (st : SimState),
      (selfCompleteLoop pre roll l i st).callEmergencies.map Emergency.id =
        st.callEmergencies.map Emergency.id := by
  intro l
  induction l with
  | nil =>
    intro i st
    simp [selfCompleteLoop]
  | cons e tl ih =>
    intro i st
    rw [selfCompleteLoop]
    dsimp only
    split
    · exact ih (i + 1) st
    · cases firstSuccessIdx (roll i)
        (findNearbyResponders e pre.callResponders (buildSpatialGrid pre.callResponders)
          CALL_SELF_COMPLETE_closeRange (pre.simTime : ℚ)) 0 with
      | none => exact ih (i + 1) st
      | some j =>
        rw [ih (i + 1) _]
        simp [setStatus_map_id]

theorem selfCompleteLoop_no_cancel (pre : SimState) (roll : ℕ → ℕ → ℚ) :
    ∀ (l : List Emergency) (i : ℕ) (st : SimState) (j : ℚ),
      statusById (selfCompleteLoop pre roll l i st).callEmergencies j = some .canceled →
        statusById st.callEmergencies j = some .canceled := by
  intro l
  induction l with
  | nil =>
    intro i st j h
    simpa [selfCompleteLoop] using h
  | cons e tl ih =>
    intro i st j h
    rw [selfCompleteLoop] at h
    dsimp only at h
    revert h
    split
    · exact ih (i + 1) st j
    · cases firstSuccessIdx (roll i)
        (findNearbyResponders e pre.callResponders (buildSpatialGrid pre.callResponders)
          CALL_SELF_COMPLETE_closeRange (pre.simTime : ℚ)) 0 with
      | none => exact ih (i + 1) st j
      | some k =>
        intro h
        have h2 := ih (i + 1) _ j h
        rw [statusById_setStatus] at h2
        by_cases hje : j = e.id
        · rw [if_pos hje] at h2
          cases hst : statusById st.callEmergencies j with
          | none => rw [hst] at h2; cases h2
          | some s => rw [hst] at h2; cases h2
        · rw [if_neg hje] at h2
          exact h2

theorem selfCompleteLoop_stats_le (pre : SimState) (roll : ℕ → ℕ → ℚ) :
    ∀ (l : List Emergency) (i : ℕ) (st : SimState),
      st.callStats.selfCompleted ≤ st.callStats.completed →
        (selfCompleteLoop pre roll l i st).callStats.selfCompleted ≤
          (selfCompleteLoop pre roll l i st).callStats.completed := by
  intro l
  induction l with
  | nil =>
    intro i st h
    simpa [selfCompleteLoop] using h
  | cons e tl ih =>
    intro i st h
    rw [selfCompleteLoop]
    dsimp only
    split
    · exact ih (i + 1) st h
    · cases firstSuccessIdx (roll i)
        (findNearbyResponders e pre.callResponders (buildSpatialGrid pre.callResponders)
          CALL_SELF_COMPLETE_closeRange (pre.simTime : ℚ)) 0 with
      | none => exact ih (i + 1) st h
      | some k =>
        apply ih (i + 1)
        simpa using Nat.succ_le_succ h

/-! ## Individual projection lemmas, derived for simp -/

@[simp] theorem dispatchLoop_isRunning (now : ℕ) (roll : ℕ → ℚ) (q : List Emergency) (ops : List ℕ) (k : ℕ) (st : SimState) :
    (dispatchLoop now roll q ops k st).isRunning = st.isRunning :=
  (dispatchLoop_frame now roll q ops k st).1

@[simp] theorem dispatchLoop_isPaused (now : ℕ) (roll : ℕ → ℚ) (q : List Emergency) (ops : List ℕ) (k : ℕ) (st : SimState) :
    (dispatchLoop now roll q ops k st).isPaused = st.isPaused :=
  (dispatchLoop_frame now roll q ops k st).2.1

@[simp] theorem dispatchLoop_speed (now : ℕ) (roll : ℕ → ℚ) (q : List Emergency) (ops : List ℕ) (k : ℕ) (st : SimState) :
    (dispatchLoop now roll q ops k st).speed = st.speed :=
  (dispatchLoop_frame now roll q ops k st).2.2.1

@[simp] theorem dispatchLoop_simTime (now : ℕ) (roll : ℕ → ℚ) (q : List Emergency) (ops : List ℕ) (k : ℕ) (st : SimState) :
    (dispatchLoop now roll q ops k st).simTime = st.simTime :=
  (dispatchLoop_frame now roll q ops k st).2.2.2.1

@[simp] theorem dispatchLoop_results (now : ℕ) (roll : ℕ → ℚ) (q : List Emergency) (ops : List ℕ) (k : ℕ) (st : SimState) :
    (dispatchLoop now roll q ops k st).results = st.results :=
  (dispatchLoop_frame now roll q ops k st).2.2.2.2.1

@[simp] theorem dispatchLoop_currentTrial (now : ℕ) (roll : ℕ → ℚ) (q : List Emergency) (ops : List ℕ) (k : ℕ) (st : SimState) :
    (dispatchLoop now roll q ops k st).currentTrial = st.currentTrial :=
  (dispatchLoop_frame now roll q ops k st).2.2.2.2.2.1

@[simp] theorem dispatchLoop_lastSelfCompleteCheck (now : ℕ) (roll : ℕ → ℚ) (q : List Emergency) (ops : List ℕ) (k : ℕ) (st : SimState) :
    (dispatchLoop now roll q ops k st).lastSelfCompleteCheck = st.lastSelfCompleteCheck :=
  (dispatchLoop_frame now roll q ops k st).2.2.2.2.2.2.1

@[simp] theorem dispatchLoop_reportEmergencies (now : ℕ) (roll : ℕ → ℚ) (q : List Emergency) (ops : List ℕ) (k : ℕ) (st : SimState) :
    (dispatchLoop now roll q ops k st).reportEmergencies = st.reportEmergencies :=
  (dispatchLoop_frame now roll q ops k st).2.2.2.2.2.2.2.1

@[simp] theorem dispatchLoop_callResponders (now : ℕ) (roll : ℕ → ℚ) (q : List Emergency) (ops : List ℕ) (k : ℕ) (st : SimState) :
    (dispatchLoop now roll q ops k st).callResponders = st.callResponders :=
  (dispatchLoop_frame now roll q ops k st).2.2.2.2.2.2.2.2.1

@[simp] theorem dispatchLoop_reportResponders (now : ℕ) (roll : ℕ → ℚ) (q : List Emergency) (ops : List ℕ) (k : ℕ) (st : SimState) :
    (dispatchLoop now roll q ops k st).reportResponders = st.reportResponders :=
  (dispatchLoop_frame now roll q ops k st).2.2.2.2.2.2.2.2.2.1

@[simp] theorem dispatchLoop_callStats (now : ℕ) (roll : ℕ → ℚ) (q : List Emergency) (ops : List ℕ) (k : ℕ) (st : SimState) :
    (dispatchLoop now roll q ops k st).callStats = st.callStats :=
  (dispatchLoop_frame now roll q ops k st).2.2.2.2.2.2.2.2.2.2.1

@[simp] theorem dispatchLoop_reportStats (now : ℕ) (roll : ℕ → ℚ) (q : List Emergency) (ops : List ℕ) (k : ℕ) (st : SimState) :
    (dispatchLoop now roll q ops k st).reportStats = st.reportStats :=
  (dispatchLoop_frame now roll q ops k st).2.2.2.2.2.2.2.2.2.2.2.1

@[simp] theorem dispatchLoop_emergencyRate (now : ℕ) (roll : ℕ → ℚ) (q : List Emergency) (ops : List ℕ) (k : ℕ) (st : SimState) :
    (dispatchLoop now roll q ops k st).emergencyRate = st.emergencyRate :=
  (dispatchLoop_frame now roll q ops k st).2.2.2.2.2.2.2.2.2.2.2.2.1

@[simp] theorem dispatchLoop_completedCallIds (now : ℕ) (roll : ℕ → ℚ) (q : List Emergency) (ops : List ℕ) (k : ℕ) (st : SimState) :
    (dispatchLoop now roll q ops k st).completedCallIds = st.completedCallIds :=
  (dispatchLoop_frame now roll q ops k st).2.2.2.2.2.2.2.2.2.2.2.2.2.1

@[simp] theorem dispatchLoop_completedReportIds (now : ℕ) (roll : ℕ → ℚ) (q : List Emergency) (ops : List ℕ) (k : ℕ) (st : SimState) :
    (dispatchLoop now roll q ops k st).completedReportIds = st.completedReportIds :=
  (dispatchLoop_frame now roll q ops k st).2.2.2.2.2.2.2.2.2.2.2.2.2.2.1

@[simp] theorem dispatchLoop_reportTimers (now : ℕ) (roll : ℕ → ℚ) (q : List Emergency) (ops : List ℕ) (k : ℕ) (st : SimState) :
    (dispatchLoop now roll q ops k st).reportTimers = st.reportTimers :=
  (dispatchLoop_frame now roll q ops k st).2.2.2.2.2.2.2.2.2.2.2.2.2.2.2

@[simp] theorem hangupLoop_isRunning (now : ℕ) (roll : ℕ → ℚ) (q : List Emergency) (k : ℕ) (st : SimState) :
    (hangupLoop now roll q k st).isRunning = st.isRunning :=
  (hangupLoop_frame now roll q k st).1

@[simp] theorem hangupLoop_isPaused (now : ℕ) (roll : ℕ → ℚ) (q : List Emergency) (k : ℕ) (st : SimState) :
    (hangupLoop now roll q k st).isPaused = st.isPaused :=
  (hangupLoop_frame now roll q k st).2.1

@[simp] theorem hangupLoop_speed (now : ℕ) (roll : ℕ → ℚ) (q : List Emergency) (k : ℕ) (st : SimState) :
    (hangupLoop now roll q k st).speed = st.speed :=
  (hangupLoop_frame now roll q k st).2.2.1

@[simp] theorem hangupLoop_simTime (now : ℕ) (roll : ℕ → ℚ) (q : List Emergency) (k : ℕ) (st : SimState) :
    (hangupLoop now roll q k st).simTime = st.simTime :=
  (hangupLoop_frame now roll q k st).2.2.2.1

@[simp] theorem hangupLoop_results (now : ℕ) (roll : ℕ → ℚ) (q : List Emergency) (k : ℕ) (st : SimState) :
    (hangupLoop now roll q k st).results = st.results :=
  (hangupLoop_frame now roll q k st).2.2.2.2.1

@[simp] theorem hangupLoop_currentTrial (now : ℕ) (roll : ℕ → ℚ) (q : List Emergency) (k : ℕ) (st : SimState) :
    (hangupLoop now roll q k st).currentTrial = st.currentTrial :=
  (hangupLoop_frame now roll q k st).2.2.2.2.2.1

@[simp] theorem hangupLoop_lastSelfCompleteCheck (now : ℕ) (roll : ℕ → ℚ) (q : List Emergency) (k : ℕ) (st : SimState) :
    (hangupLoop now roll q k st).lastSelfCompleteCheck = st.lastSelfCompleteCheck :=
  (hangupLoop_frame now roll q k st).2.2.2.2.2.2.1

@[simp] theorem hangupLoop_reportEmergencies (now : ℕ) (roll : ℕ → ℚ) (q : List Emergency) (k : ℕ) (st : SimState) :
    (hangupLoop now roll q k st).reportEmergencies = st.reportEmergencies :=
  (hangupLoop_frame now roll q k st).2.2.2.2.2.2.2.1

@[simp] theorem hangupLoop_callResponders (now : ℕ) (roll : ℕ → ℚ) (q : List Emergency) (k : ℕ) (st : SimState) :
    (hangupLoop now roll q k st).callResponders = st.callResponders :=
  (hangupLoop_frame now roll q k st).2.2.2.2.2.2.2.2.1

@[simp] theorem hangupLoop_reportResponders (now : ℕ) (roll : ℕ → ℚ) (q : List Emergency) (k : ℕ) (st : SimState) :
    (hangupLoop now roll q k st).reportResponders = st.reportResponders :=
  (hangupLoop_frame now roll q k st).2.2.2.2.2.2.2.2.2.1

@[simp] theorem hangupLoop_reportStats (now : ℕ) (roll : ℕ → ℚ) (q : List Emergency) (k : ℕ) (st : SimState) :
    (hangupLoop now roll q k st).reportStats = st.reportStats :=
  (hangupLoop_frame now roll q k st).2.2.2.2.2.2.2.2.2.2.1

@[simp] theorem hangupLoop_emergencyRate (now : ℕ) (roll : ℕ → ℚ) (q : List Emergency) (k : ℕ) (st : SimState) :
    (hangupLoop now roll q k st).emergencyRate = st.emergencyRate :=
  (hangupLoop_frame now roll q k st).2.2.2.2.2.2.2.2.2.2.2.1

@[simp] theorem hangupLoop_completedCallIds (now : ℕ) (roll : ℕ → ℚ) (q : List Emergency) (k : ℕ) (st : SimState) :
    (hangupLoop now roll q k st).completedCallIds = st.completedCallIds :=
  (hangupLoop_frame now roll q k st).2.2.2.2.2.2.2.2.2.2.2.2.1

@[simp] theorem hangupLoop_completedReportIds (now : ℕ) (roll : ℕ → ℚ) (q : List Emergency) (k : ℕ) (st : SimState) :
    (hangupLoop now roll q k st).completedReportIds = st.completedReportIds :=
  (hangupLoop_frame now roll q k st).2.2.2.2.2.2.2.2.2.2.2.2.2.1

@[simp] theorem hangupLoop_reportTimers (now : ℕ) (roll : ℕ → ℚ) (q : List Emergency) (k : ℕ) (st : SimState) :
    (hangupLoop now roll q k st).reportTimers = st.reportTimers :=
  (hangupLoop_frame now roll q k st).2.2.2.2.2.2.2.2.2.2.2.2.2.2.1

@[simp] theorem hangupLoop_callTimers (now : ℕ) (roll : ℕ → ℚ) (q : List Emergency) (k : ℕ) (st : SimState) :
    (hangupLoop now roll q k st).callTimers = st.callTimers :=
  (hangupLoop_frame now roll q k st).2.2.2.2.2.2.2.2.2.2.2.2.2.2.2.1

@[simp] theorem hangupLoop_callOperatorsBusy (now : ℕ) (roll : ℕ → ℚ) (q : List Emergency) (k : ℕ) (st : SimState) :
    (hangupLoop now roll q k st).callOperatorsBusy = st.callOperatorsBusy :=
  (hangupLoop_frame now roll q k st).2.2.2.2.2.2.2.2.2.2.2.2.2.2.2.2.1

@[simp] theorem hangupLoop_stats_completed (now : ℕ) (roll : ℕ → ℚ) (q : List Emergency) (k : ℕ) (st : SimState) :
    (hangupLoop now roll q k st).callStats.completed = st.callStats.completed :=
  (hangupLoop_frame now roll q k st).2.2.2.2.2.2.2.2.2.2.2.2.2.2.2.2.2.1

@[simp] theorem hangupLoop_stats_selfCompleted (now : ℕ) (roll : ℕ → ℚ) (q : List Emergency) (k : ℕ) (st : SimState) :
    (hangupLoop now roll q k st).callStats.selfCompleted = st.callStats.selfCompleted :=
  (hangupLoop_frame now roll q k st).2.2.2.2.2.2.2.2.2.2.2.2.2.2.2.2.2.2.1

@[simp] theorem hangupLoop_stats_totalTime (now : ℕ) (roll : ℕ → ℚ) (q : List Emergency) (k : ℕ) (st : SimState) :
    (hangupLoop now roll q k st).callStats.totalTime = st.callStats.totalTime :=
  (hangupLoop_frame now roll q k st).2.2.2.2.2.2.2.2.2.2.2.2.2.2.2.2.2.2.2.1

@[simp] theorem hangupLoop_stats_totalProcessTime (now : ℕ) (roll : ℕ → ℚ) (q : List Emergency) (k : ℕ) (st : SimState) :
    (hangupLoop now roll q k st).callStats.totalProcessTime = st.callStats.totalProcessTime :=
  (hangupLoop_frame now roll q k st).2.2.2.2.2.2.2.2.2.2.2.2.2.2.2.2.2.2.2.2

@[simp] theorem reportLoop_isRunning (pre : SimState) (pending : List Emergency) (roll : ℕ → ℚ) (rs : List FirstResponder) (claimed : List ℚ) (k : ℕ) (st : SimState) :
    (reportLoop pre pending roll rs claimed k st).isRunning = st.isRunning :=
  (reportLoop_frame pre pending roll rs claimed k st).1

@[simp] theorem reportLoop_isPaused (pre : SimState) (pending : List Emergency) (roll : ℕ → ℚ) (rs : List FirstResponder) (claimed : List ℚ) (k : ℕ) (st : SimState) :
    (reportLoop pre pending roll rs claimed k st).isPaused = st.isPaused :=
  (reportLoop_frame pre pending roll rs claimed k st).2.1

@[simp] theorem reportLoop_speed (pre : SimState) (pending : List Emergency) (roll : ℕ → ℚ) (rs : List FirstResponder) (claimed : List ℚ) (k : ℕ) (st : SimState) :
    (reportLoop pre pending roll rs claimed k st).speed = st.speed :=
  (reportLoop_frame pre pending roll rs claimed k st).2.2.1

@[simp] theorem reportLoop_simTime (pre : SimState) (pending : List Emergency) (roll : ℕ → ℚ) (rs : List FirstResponder) (claimed : List ℚ) (k : ℕ) (st : SimState) :
    (reportLoop pre pending roll rs claimed k st).simTime = st.simTime :=
  (reportLoop_frame pre pending roll rs claimed k st).2.2.2.1

@[simp] theorem reportLoop_results (pre : SimState) (pending : List Emergency) (roll : ℕ → ℚ) (rs : List FirstResponder) (claimed : List ℚ) (k : ℕ) (st : SimState) :
    (reportLoop pre pending roll rs claimed k st).results = st.results :=
  (reportLoop_frame pre pending roll rs claimed k st).2.2.2.2.1

@[simp] theorem reportLoop_currentTrial (pre : SimState) (pending : List Emergency) (roll : ℕ → ℚ) (rs : List FirstResponder) (claimed : List ℚ) (k : ℕ) (st : SimState) :
    (reportLoop pre pending roll rs claimed k st).currentTrial = st.currentTrial :=
  (reportLoop_frame pre pending roll rs claimed k st).2.2.2.2.2.1

@[simp] theorem reportLoop_lastSelfCompleteCheck (pre : SimState) (pending : List Emergency) (roll : ℕ → ℚ) (rs : List FirstResponder) (claimed : List ℚ) (k : ℕ) (st : SimState) :
    (reportLoop pre pending roll rs claimed k st).lastSelfCompleteCheck = st.lastSelfCompleteCheck :=
  (reportLoop_frame pre pending roll rs claimed k st).2.2.2.2.2.2.1

@[simp] theorem reportLoop_callEmergencies (pre : SimState) (pending : List Emergency) (roll : ℕ → ℚ) (rs : List FirstResponder) (claimed : List ℚ) (k : ℕ) (st : SimState) :
    (reportLoop pre pending roll rs claimed k st).callEmergencies = st.callEmergencies :=
  (reportLoop_frame pre pending roll rs claimed k st).2.2.2.2.2.2.2.1

@[simp] theorem reportLoop_callQueue (pre : SimState) (pending : List Emergency) (roll : ℕ → ℚ) (rs : List FirstResponder) (claimed : List ℚ) (k : ℕ) (st : SimState) :
    (reportLoop pre pending roll rs claimed k st).callQueue = st.callQueue :=
  (reportLoop_frame pre pending roll rs claimed k st).2.2.2.2.2.2.2.2.1

@[simp] theorem reportLoop_callResponders (pre : SimState) (pending : List Emergency) (roll : ℕ → ℚ) (rs : List FirstResponder) (claimed : List ℚ) (k : ℕ) (st : SimState) :
    (reportLoop pre pending roll rs claimed k st).callResponders = st.callResponders :=
  (reportLoop_frame pre pending roll rs claimed k st).2.2.2.2.2.2.2.2.2.1

@[simp] theorem reportLoop_callStats (pre : SimState) (pending : List Emergency) (roll : ℕ → ℚ) (rs : List FirstResponder) (claimed : List ℚ) (k : ℕ) (st : SimState) :
    (reportLoop pre pending roll rs claimed k st).callStats = st.callStats :=
  (reportLoop_frame pre pending roll rs claimed k st).2.2.2.2.2.2.2.2.2.2.1

@[simp] theorem reportLoop_reportStats (pre : SimState) (pending : List Emergency) (roll : ℕ → ℚ) (rs : List FirstResponder) (claimed : List ℚ) (k : ℕ) (st : SimState) :
    (reportLoop pre pending roll rs claimed k st).reportStats = st.reportStats :=
  (reportLoop_frame pre pending roll rs claimed k st).2.2.2.2.2.2.2.2.2.2.2.1

@[simp] theorem reportLoop_emergencyRate (pre : SimState) (pending : List Emergency) (roll : ℕ → ℚ) (rs : List FirstResponder) (claimed : List ℚ) (k : ℕ) (st : SimState) :
    (reportLoop pre pending roll rs claimed k st).emergencyRate = st.emergencyRate :=
  (reportLoop_frame pre pending roll rs claimed k st).2.2.2.2.2.2.2.2.2.2.2.2.1

@[simp] theorem reportLoop_completedCallIds (pre : SimState) (pending : List Emergency) (roll : ℕ → ℚ) (rs : List FirstResponder) (claimed : List ℚ) (k : ℕ) (st : SimState) :
    (reportLoop pre pending roll rs claimed k st).completedCallIds = st.completedCallIds :=
  (reportLoop_frame pre pending roll rs claimed k st).2.2.2.2.2.2.2.2.2.2.2.2.2.1

@[simp] theorem reportLoop_completedReportIds (pre : SimState) (pending : List Emergency) (roll : ℕ → ℚ) (rs : List FirstResponder) (claimed : List ℚ) (k : ℕ) (st : SimState) :
    (reportLoop pre pending roll rs claimed k st).completedReportIds = st.completedReportIds :=
  (reportLoop_frame pre pending roll rs claimed k st).2.2.2.2.2.2.2.2.2.2.2.2.2.2.1

@[simp] theorem reportLoop_callTimers (pre : SimState) (pending : List Emergency) (roll : ℕ → ℚ) (rs : List FirstResponder) (claimed : List ℚ) (k : ℕ) (st : SimState) :
    (reportLoop pre pending roll rs claimed k st).callTimers = st.callTimers :=
  (reportLoop_frame pre pending roll rs claimed k st).2.2.2.2.2.2.2.2.2.2.2.2.2.2.2.1

@[simp] theorem reportLoop_callOperatorsBusy (pre : SimState) (pending : List Emergency) (roll : ℕ → ℚ) (rs : List FirstResponder) (claimed : List ℚ) (k : ℕ) (st : SimState) :
    (reportLoop pre pending roll rs claimed k st).callOperatorsBusy = st.callOperatorsBusy :=
  (reportLoop_frame pre pending roll rs claimed k st).2.2.2.2.2.2.2.2.2.2.2.2.2.2.2.2

@[simp] theorem selfCompleteLoop_isRunning (pre : SimState) (roll : ℕ → ℕ → ℚ) (l : List Emergency) (i : ℕ) (st : SimState) :
    (selfCompleteLoop pre roll l i st).isRunning = st.isRunning :=
  (selfCompleteLoop_frame pre roll l i st).1

@[simp] theorem selfCompleteLoop_isPaused (pre : SimState) (roll : ℕ → ℕ → ℚ) (l : List Emergency) (i : ℕ) (st : SimState) :
    (selfCompleteLoop pre roll l i st).isPaused = st.isPaused :=
  (selfCompleteLoop_frame pre roll l i st).2.1

@[simp] theorem selfCompleteLoop_speed (pre : SimState) (roll : ℕ → ℕ → ℚ) (l : List Emergency) (i : ℕ) (st : SimState) :
    (selfCompleteLoop pre roll l i st).speed = st.speed :=
  (selfCompleteLoop_frame pre roll l i st).2.2.1

@[simp] theorem selfCompleteLoop_simTime (pre : SimState) (roll : ℕ → ℕ → ℚ) (l : List Emergency) (i : ℕ) (st : SimState) :
    (selfCompleteLoop pre roll l i st).simTime = st.simTime :=
  (selfCompleteLoop_frame pre roll l i st).2.2.2.1

@[simp] theorem selfCompleteLoop_results (pre : SimState) (roll : ℕ → ℕ → ℚ) (l : List Emergency) (i : ℕ) (st : SimState) :
    (selfCompleteLoop pre roll l i st).results = st.results :=
  (selfCompleteLoop_frame pre roll l i st).2.2.2.2.1

@[simp] theorem selfCompleteLoop_currentTrial (pre : SimState) (roll : ℕ → ℕ → ℚ) (l : List Emergency) (i : ℕ) (st : SimState) :
    (selfCompleteLoop pre roll l i st).currentTrial = st.currentTrial :=
  (selfCompleteLoop_frame pre roll l i st).2.2.2.2.2.1

@[simp] theorem selfCompleteLoop_lastSelfCompleteCheck (pre : SimState) (roll : ℕ → ℕ → ℚ) (l : List Emergency) (i : ℕ) (st : SimState) :
    (selfCompleteLoop pre roll l i st).lastSelfCompleteCheck = st.lastSelfCompleteCheck :=
  (selfCompleteLoop_frame pre roll l i st).2.2.2.2.2.2.1

@[simp] theorem selfCompleteLoop_reportEmergencies (pre : SimState) (roll : ℕ → ℕ → ℚ) (l : List Emergency) (i : ℕ) (st : SimState) :
    (selfCompleteLoop pre roll l i st).reportEmergencies = st.reportEmergencies :=
  (selfCompleteLoop_frame pre roll l i st).2.2.2.2.2.2.2.1

@[simp] theorem selfCompleteLoop_callResponders (pre : SimState) (roll : ℕ → ℕ → ℚ) (l : List Emergency) (i : ℕ) (st : SimState) :
    (selfCompleteLoop pre roll l i st).callResponders = st.callResponders :=
  (selfCompleteLoop_frame pre roll l i st).2.2.2.2.2.2.2.2.1

@[simp] theorem selfCompleteLoop_reportResponders (pre : SimState) (roll : ℕ → ℕ → ℚ) (l : List Emergency) (i : ℕ) (st : SimState) :
    (selfCompleteLoop pre roll l i st).reportResponders = st.reportResponders :=
  (selfCompleteLoop_frame pre roll l i st).2.2.2.2.2.2.2.2.2.1

@[simp] theorem selfCompleteLoop_reportStats (pre : SimState) (roll : ℕ → ℕ → ℚ) (l : List Emergency) (i : ℕ) (st : SimState) :
    (selfCompleteLoop pre roll l i st).reportStats = st.reportStats :=
  (selfCompleteLoop_frame pre roll l i st).2.2.2.2.2.2.2.2.2.2.1

@[simp] theorem selfCompleteLoop_emergencyRate (pre : SimState) (roll : ℕ → ℕ → ℚ) (l : List Emergency) (i : ℕ) (st : SimState) :
    (selfCompleteLoop pre roll l i st).emergencyRate = st.emergencyRate :=
  (selfCompleteLoop_frame pre roll l i st).2.2.2.2.2.2.2.2.2.2.2.1

@[simp] theorem selfCompleteLoop_completedReportIds (pre : SimState) (roll : ℕ → ℕ → ℚ) (l : List Emergency) (i : ℕ) (st : SimState) :
    (selfCompleteLoop pre roll l i st).completedReportIds = st.completedReportIds :=
  (selfCompleteLoop_frame pre roll l i st).2.2.2.2.2.2.2.2.2.2.2.2.1

@[simp] theorem selfCompleteLoop_reportTimers (pre : SimState) (roll : ℕ → ℕ → ℚ) (l : List Emergency) (i : ℕ) (st : SimState) :
    (selfCompleteLoop pre roll l i st).reportTimers = st.reportTimers :=
  (selfCompleteLoop_frame pre roll l i st).2.2.2.2.2.2.2.2.2.2.2.2.2.1

@[simp] theorem selfCompleteLoop_callTimers (pre : SimState) (roll : ℕ → ℕ → ℚ) (l : List Emergency) (i : ℕ) (st : SimState) :
    (selfCompleteLoop pre roll l i st).callTimers = st.callTimers :=
  (selfCompleteLoop_frame pre roll l i st).2.2.2.2.2.2.2.2.2.2.2.2.2.2.1

@[simp] theorem selfCompleteLoop_callOperatorsBusy (pre : SimState) (roll : ℕ → ℕ → ℚ) (l : List Emergency) (i : ℕ) (st : SimState) :
    (selfCompleteLoop pre roll l i st).callOperatorsBusy = st.callOperatorsBusy :=
  (selfCompleteLoop_frame pre roll l i st).2.2.2.2.2.2.2.2.2.2.2.2.2.2.2.1

@[simp] theorem selfCompleteLoop_stats_canceled (pre : SimState) (roll : ℕ → ℕ → ℚ) (l : List Emergency) (i : ℕ) (st : SimState) :
    (selfCompleteLoop pre roll l i st).callStats.canceled = st.callStats.canceled :=
  (selfCompleteLoop_frame pre roll l i st).2.2.2.2.2.2.2.2.2.2.2.2.2.2.2.2.1

@[simp] theorem selfCompleteLoop_stats_totalProcessTime (pre : SimState) (roll : ℕ → ℕ → ℚ) (l : List Emergency) (i : ℕ) (st : SimState) :
    (selfCompleteLoop pre roll l i st).callStats.totalProcessTime = st.callStats.totalProcessTime :=
  (selfCompleteLoop_frame pre roll l i st).2.2.2.2.2.2.2.2.2.2.2.2.2.2.2.2.2

/-! ## Frame lemmas for the remaining steps -/

theorem selfCompleteStep_def (pre : SimState) (roll : ℕ → ℕ → ℚ) (st : SimState) :
    selfCompleteStep pre roll st =
      if (SELF_COMPLETE_CHECK_INTERVAL : ℤ) ≤ (pre.simTime : ℤ) - (pre.lastSelfCompleteCheck : ℤ)
      then selfCompleteLoop pre roll
        (pre.callEmergencies.filter fun e => decide (e.status = .pending)) 0
        { st with lastSelfCompleteCheck := pre.simTime }
      else st := rfl

@[simp] theorem selfCompleteStep_isRunning (pre : SimState) (roll : ℕ → ℕ → ℚ) (st : SimState) :
    (selfCompleteStep pre roll st).isRunning = st.isRunning := by
  rw [selfCompleteStep_def]
  split <;> simp

@[simp] theorem selfCompleteStep_isPaused (pre : SimState) (roll : ℕ → ℕ → ℚ) (st : SimState) :
    (selfCompleteStep pre roll st).isPaused = st.isPaused := by
  rw [selfCompleteStep_def]
  split <;> simp

@[simp] theorem selfCompleteStep_speed (pre : SimState) (roll : ℕ → ℕ → ℚ) (st : SimState) :
    (selfCompleteStep pre roll st).speed = st.speed := by
  rw [selfCompleteStep_def]
  split <;> simp

@[simp] theorem selfCompleteStep_simTime (pre : SimState) (roll : ℕ → ℕ → ℚ) (st : SimState) :
    (selfCompleteStep pre roll st).simTime = st.simTime := by
  rw [selfCompleteStep_def]
  split <;> simp

@[simp] theorem selfCompleteStep_results (pre : SimState) (roll : ℕ → ℕ → ℚ) (st : SimState) :
    (selfCompleteStep pre roll st).results = st.results := by
  rw [selfCompleteStep_def]
  split <;> simp

@[simp] theorem selfCompleteStep_currentTrial (pre : SimState) (roll : ℕ → ℕ → ℚ)
    (st : SimState) : (selfCompleteStep pre roll st).currentTrial = st.currentTrial := by
  rw [selfCompleteStep_def]
  split <;> simp

@[simp] theorem selfCompleteStep_reportEmergencies (pre : SimState) (roll : ℕ → ℕ → ℚ)
    (st : SimState) :
    (selfCompleteStep pre roll st).reportEmergencies = st.reportEmergencies := by
  rw [selfCompleteStep_def]
  split <;> simp

@[simp] theorem selfCompleteStep_callResponders (pre : SimState) (roll : ℕ → ℕ → ℚ)
    (st : SimState) : (selfCompleteStep pre roll st).callResponders = st.callResponders := by
  rw [selfCompleteStep_def]
  split <;> simp

@[simp] theorem selfCompleteStep_reportResponders (pre : SimState) (roll : ℕ → ℕ → ℚ)
    (st : SimState) :
    (selfCompleteStep pre roll st).reportResponders = st.reportResponders := by
  rw [selfCompleteStep_def]
  split <;> simp

@[simp] theorem selfCompleteStep_reportStats (pre : SimState) (roll : ℕ → ℕ → ℚ)
    (st : SimState) : (selfCompleteStep pre roll st).reportStats = st.reportStats := by
  rw [selfCompleteStep_def]
  split <;> simp

@[simp] theorem selfCompleteStep_emergencyRate (pre : SimState) (roll : ℕ → ℕ → ℚ)
    (st : SimState) : (selfCompleteStep pre roll st).emergencyRate = st.emergencyRate := by
  rw [selfCompleteStep_def]
  split <;> simp

@[simp] theorem selfCompleteStep_completedReportIds (pre : SimState) (roll : ℕ → ℕ → ℚ)
    (st : SimState) :
    (selfCompleteStep pre roll st).completedReportIds = st.completedReportIds := by
  rw [selfCompleteStep_def]
  split <;> simp

@[simp] theorem selfCompleteStep_reportTimers (pre : SimState) (roll : ℕ → ℕ → ℚ)
    (st : SimState) : (selfCompleteStep pre roll st).reportTimers = st.reportTimers := by
  rw [selfCompleteStep_def]
  split <;> simp

@[simp] theorem selfCompleteStep_callTimers (pre : SimState) (roll : ℕ → ℕ → ℚ)
    (st : SimState) : (selfCompleteStep pre roll st).callTimers = st.callTimers := by
  rw [selfCompleteStep_def]
  split <;> simp

@[simp] theorem selfCompleteStep_callOperatorsBusy (pre : SimState) (roll : ℕ → ℕ → ℚ)
    (st : SimState) :
    (selfCompleteStep pre roll st).callOperatorsBusy = st.callOperatorsBusy := by
  rw [selfCompleteStep_def]
  split <;> simp

@[simp] theorem selfCompleteStep_stats_canceled (pre : SimState) (roll : ℕ → ℕ → ℚ)
    (st : SimState) :
    (selfCompleteStep pre roll st).callStats.canceled = st.callStats.canceled := by
  rw [selfCompleteStep_def]
  split <;> simp

theorem selfCompleteStep_ids (pre : SimState) (roll : ℕ → ℕ → ℚ) (st : SimState) :
    (selfCompleteStep pre roll st).callEmergencies.map Emergency.id =
      st.callEmergencies.map Emergency.id := by
  rw [selfCompleteStep_def]
  split
  · rw [selfCompleteLoop_ids]
  · rfl

theorem selfCompleteStep_no_cancel (pre : SimState) (roll : ℕ → ℕ → ℚ) (st : SimState)
    (j : ℚ) (h : statusById (selfCompleteStep pre roll st).callEmergencies j = some .canceled) :
    statusById st.callEmergencies j = some .canceled := by
  rw [selfCompleteStep_def] at h
  revert h
  split
  · intro h
    exact selfCompleteLoop_no_cancel pre roll _ 0
      { st with lastSelfCompleteCheck := pre.simTime } j h
  · exact id

theorem selfCompleteStep_stats_le (pre : SimState) (roll : ℕ → ℕ → ℚ) (st : SimState)
    (h : st.callStats.selfCompleted ≤ st.callStats.completed) :
    (selfCompleteStep pre roll st).callStats.selfCompleted ≤
      (selfCompleteStep pre roll st).callStats.completed := by
  rw [selfCompleteStep_def]
  split
  · exact selfCompleteLoop_stats_le pre roll _ 0
      { st with lastSelfCompleteCheck := pre.simTime } h
  · exact h

theorem genTick_frame (s : SimState) (o : GenDraws) :
    (genTick s o).isPaused = s.isPaused ∧
    (genTick s o).speed = s.speed ∧
    (genTick s o).results = s.results ∧
    (genTick s o).currentTrial = s.currentTrial ∧
    (genTick s o).lastSelfCompleteCheck = s.lastSelfCompleteCheck ∧
    (genTick s o).callResponders = s.callResponders ∧
    (genTick s o).reportResponders = s.reportResponders ∧
    (genTick s o).callStats = s.callStats ∧
    (genTick s o).reportStats = s.reportStats ∧
    (genTick s o).emergencyRate = s.emergencyRate ∧
    (genTick s o).completedCallIds = s.completedCallIds ∧
    (genTick s o).completedReportIds = s.completedReportIds ∧
    (genTick s o).callTimers = s.callTimers ∧
    (genTick s o).reportTimers = s.reportTimers ∧
    (genTick s o).callOperatorsBusy = s.callOperatorsBusy ∧
    (genTick s o).simTime = s.simTime + 1 := by
  rw [genTick]
  dsimp only
  split
  · simp
  · split <;> simp

theorem fireCallTimer_frame (s : SimState) (i : ℕ) :
    (fireCallTimer s i).isRunning = s.isRunning ∧
    (fireCallTimer s i).isPaused = s.isPaused ∧
    (fireCallTimer s i).speed = s.speed ∧
    (fireCallTimer s i).simTime = s.simTime ∧
    (fireCallTimer s i).results = s.results ∧
    (fireCallTimer s i).currentTrial = s.currentTrial ∧
    (fireCallTimer s i).lastSelfCompleteCheck = s.lastSelfCompleteCheck ∧
    (fireCallTimer s i).reportEmergencies = s.reportEmergencies ∧
    (fireCallTimer s i).callResponders = s.callResponders ∧
    (fireCallTimer s i).reportResponders = s.reportResponders ∧
    (fireCallTimer s i).reportStats = s.reportStats ∧
    (fireCallTimer s i).emergencyRate = s.emergencyRate ∧
    (fireCallTimer s i).completedReportIds = s.completedReportIds ∧
    (fireCallTimer s i).reportTimers = s.reportTimers ∧
    (fireCallTimer s i).callOperatorsBusy = s.callOperatorsBusy ∧
    (fireCallTimer s i).callQueue = s.callQueue ∧
    (fireCallTimer s i).callStats.canceled = s.callStats.canceled ∧
    (fireCallTimer s i).callStats.selfCompleted = s.callStats.selfCompleted := by
  rw [fireCallTimer]
  cases h : s.callTimers[i]? with
  | none => simp
  | some t =>
    dsimp only
    split <;> simp

theorem fireReportTimer_frame (s : SimState) (i : ℕ) :
    (fireReportTimer s i).isRunning = s.isRunning ∧
    (fireReportTimer s i).isPaused = s.isPaused ∧
    (fireReportTimer s i).speed = s.speed ∧
    (fireReportTimer s i).simTime = s.simTime ∧
    (fireReportTimer s i).results = s.results ∧
    (fireReportTimer s i).currentTrial = s.currentTrial ∧
    (fireReportTimer s i).lastSelfCompleteCheck = s.lastSelfCompleteCheck ∧
    (fireReportTimer s i).callEmergencies = s.callEmergencies ∧
    (fireReportTimer s i).callQueue = s.callQueue ∧
    (fireReportTimer s i).callResponders = s.callResponders ∧
    (fireReportTimer s i).reportResponders = s.reportResponders ∧
    (fireReportTimer s i).callStats = s.callStats ∧
    (fireReportTimer s i).emergencyRate = s.emergencyRate ∧
    (fireReportTimer s i).completedCallIds = s.completedCallIds ∧
    (fireReportTimer s i).callTimers = s.callTimers ∧
    (fireReportTimer s i).callOperatorsBusy = s.callOperatorsBusy ∧
    (fireReportTimer s i).reportStats.canceled = s.reportStats.canceled := by
  rw [fireReportTimer]
  cases h : s.reportTimers[i]? with
  | none => simp
  | some t =>
    dsimp only
    split <;> simp

/-- A report-pipeline deferred completion increments `selfCompleted` and
`completed` together, so their equality is preserved. -/
theorem fireReportTimer_stats_eq (s : SimState) (i : ℕ)
    (h : s.reportStats.selfCompleted = s.reportStats.completed) :
    (fireReportTimer s i).reportStats.selfCompleted =
      (fireReportTimer s i).reportStats.completed := by
  rw [fireReportTimer]
  cases hc : s.reportTimers[i]? with
  | none => exact h
  | some t =>
    dsimp only
    split
    · exact h
    · simpa using h

theorem captureStep_frame (s : SimState) :
    (captureStep s).isRunning = s.isRunning ∧
    (captureStep s).isPaused = s.isPaused ∧
    (captureStep s).speed = s.speed ∧
    (captureStep s).simTime = s.simTime ∧
    (captureStep s).currentTrial = s.currentTrial ∧
    (captureStep s).lastSelfCompleteCheck = s.lastSelfCompleteCheck ∧
    (captureStep s).callEmergencies = s.callEmergencies ∧
    (captureStep s).reportEmergencies = s.reportEmergencies ∧
    (captureStep s).callQueue = s.callQueue ∧
    (captureStep s).callResponders = s.callResponders ∧
    (captureStep s).reportResponders = s.reportResponders ∧
    (captureStep s).callStats = s.callStats ∧
    (captureStep s).reportStats = s.reportStats ∧
    (captureStep s).emergencyRate = s.emergencyRate ∧
    (captureStep s).completedCallIds = s.completedCallIds ∧
    (captureStep s).completedReportIds = s.completedReportIds ∧
    (captureStep s).callTimers = s.callTimers ∧
    (captureStep s).reportTimers = s.reportTimers ∧
    (captureStep s).callOperatorsBusy = s.callOperatorsBusy := by
  rw [captureStep]
  split
  · split <;> simp
  · simp

/-! ## Composed frame lemmas for one processing tick -/

theorem processTick_frame (s : SimState) (o : ProcessDraws) :
    (processTick s o).isRunning = s.isRunning ∧
    (processTick s o).isPaused = s.isPaused ∧
    (processTick s o).speed = s.speed ∧
    (processTick s o).simTime = s.simTime ∧
    (processTick s o).results = s.results ∧
    (processTick s o).currentTrial = s.currentTrial ∧
    (processTick s o).emergencyRate = s.emergencyRate ∧
    (processTick s o).callResponders = s.callResponders ∧
    (processTick s o).reportStats = s.reportStats := by
  rw [processTick]
  simp

theorem processTick_stats_le (s : SimState) (o : ProcessDraws)
    (h : s.callStats.selfCompleted ≤ s.callStats.completed) :
    (processTick s o).callStats.selfCompleted ≤ (processTick s o).callStats.completed := by
  rw [processTick]
  apply selfCompleteStep_stats_le
  simp [h]

/-! ## Claim C4: self-completed counter bounds -/

theorem fireCallTimer_completed_mono (s : SimState) (i : ℕ) :
    s.callStats.completed ≤ (fireCallTimer s i).callStats.completed := by
  rw [fireCallTimer]
  cases h : s.callTimers[i]? with
  | none => exact le_refl _
  | some t =>
    dsimp only
    split
    · exact le_refl _
    · simp

def statsInv (s : SimState) : Prop :=
  s.callStats.selfCompleted ≤ s.callStats.completed ∧
    s.reportStats.selfCompleted = s.reportStats.completed

theorem statsInv_step {s s' : SimState} (h : TrialStep s s') (hs : statsInv s) : statsInv s' := by
  rcases h with ⟨e, hstep, hns⟩
  cases hstep with
  | start o h1 h2 => exact absurd rfl (hns o)
  | gen o h1 h2 h3 =>
    obtain ⟨-, -, -, -, -, -, -, hcs, hrs, -⟩ := genTick_frame s o
    exact ⟨by rw [hcs]; exact hs.1, by rw [hrs]; exact hs.2⟩
  | process o h1 h2 h3 =>
    refine ⟨processTick_stats_le s o hs.1, ?_⟩
    have hrs := (processTick_frame s o).2.2.2.2.2.2.2.2
    rw [hrs]
    exact hs.2
  | fireCall i =>
    obtain ⟨-, -, -, -, -, -, -, -, -, -, hrs, -, -, -, -, -, -, hsc⟩ := fireCallTimer_frame s i
    exact ⟨by rw [hsc]; exact hs.1.trans (fireCallTimer_completed_mono s i),
      by rw [hrs]; exact hs.2⟩
  | fireReport i =>
    obtain ⟨-, -, -, -, -, -, -, -, -, -, -, hcs, -⟩ := fireReportTimer_frame s i
    exact ⟨by rw [hcs]; exact hs.1, fireReportTimer_stats_eq s i hs.2⟩
  | capture =>
    obtain ⟨-, -, -, -, -, -, -, -, -, -, -, hcs, hrs, -⟩ := captureStep_frame s
    exact ⟨by rw [hcs]; exact hs.1, by rw [hrs]; exact hs.2⟩
  | setSpeed v => exact hs
  | togglePause h1 => exact hs

/-- Claim C4: at every reachable point of a trial, the call pipeline's
`selfCompleted` count never exceeds its `completed` count, and the report
pipeline's `selfCompleted` always equals its `completed` (every
report-pipeline completion increments both together). -/
theorem claim_C4_self_completed_bounds (o : StartDraws) (s : SimState)
    (h : TrialReachable o s) :
    s.callStats.selfCompleted ≤ s.callStats.completed ∧
      s.reportStats.selfCompleted = s.reportStats.completed := by
  induction h with
  | refl => exact ⟨le_refl 0, rfl⟩
  | tail _ hbc ih => exact statsInv_step hbc ih

/-- Concrete start draw: all responders at `(29.5, -95)` (inside the Houston
bounds), extra-volume roll `0`. -/
def someStart : StartDraws :=
  { responderCoords := fun _ => ((59 : ℚ)/2, (-95 : ℚ)), additionalRoll := 0 }

theorem someStart_ok : someStart.ok := by
  constructor
  · intro i
    refine ⟨by norm_num [someStart, HOUSTON_latMin], by norm_num [someStart, HOUSTON_latMax],
      by norm_num [someStart, HOUSTON_lngMin], by norm_num [someStart, HOUSTON_lngMax]⟩
  · exact ⟨le_refl 0, by norm_num [someStart]⟩

theorem claim_C4_witness :
    TrialReachable someStart (startStep initState someStart) ∧
      ((startStep initState someStart).callStats.selfCompleted ≤
          (startStep initState someStart).callStats.completed ∧
        (startStep initState someStart).reportStats.selfCompleted =
          (startStep initState someStart).reportStats.completed) :=
  ⟨Relation.ReflTransGen.refl,
    claim_C4_self_completed_bounds someStart _ Relation.ReflTransGen.refl⟩

/-! ## Claim C10: the call pipeline never touches its responders -/

theorem trialStep_callResponders {s s' : SimState} (h : TrialStep s s') :
    s'.callResponders = s.callResponders := by
  rcases h with ⟨e, hstep, hns⟩
  cases hstep with
  | start o h1 h2 => exact absurd rfl (hns o)
  | gen o _ _ _ => exact (genTick_frame s o).2.2.2.2.2.1
  | process o _ _ _ => exact (processTick_frame s o).2.2.2.2.2.2.2.1
  | fireCall i => exact (fireCallTimer_frame s i).2.2.2.2.2.2.2.2.1
  | fireReport i => exact (fireReportTimer_frame s i).2.2.2.2.2.2.2.2.2.1
  | capture => exact (captureStep_frame s).2.2.2.2.2.2.2.2.2.1
  | setSpeed v => rfl
  | togglePause _ => rfl

theorem startStep_callResponders (s0 : SimState) (o : StartDraws) :
    (startStep s0 o).callResponders = initializeResponders o.responderCoords := by
  rw [startStep]

theorem initializeResponders_busy (c : ℕ → ℚ × ℚ) :
    ∀ r ∈ initializeResponders c, r.busyUntil = 0 := by
  intro r hr
  rw [initializeResponders] at hr
  rcases List.mem_map.mp hr with ⟨i, -, rfl⟩
  rfl

/-- Claim C10: throughout a trial no call-pipeline operation modifies the
call responder population at all — it stays the population built by
`startSimulation`, and every call responder keeps `busyUntil = 0`, hence
stays free for every `findNearbyResponders` query; only report responders
ever get `busyUntil` updates. -/
theorem claim_C10_call_responders_frozen (o : StartDraws) (s : SimState)
    (h : TrialReachable o s) :
    s.callResponders = initializeResponders o.responderCoords ∧
      ∀ r ∈ s.callResponders, r.busyUntil = 0 := by
  induction h with
  | refl =>
    constructor
    · exact startStep_callResponders initState o
    · intro r hr
      rw [startStep_callResponders] at hr
      exact initializeResponders_busy _ r hr
  | tail _ hbc ih =>
    have h2 := trialStep_callResponders hbc
    exact ⟨h2.trans ih.1, fun r hr => ih.2 r (h2 ▸ hr)⟩

theorem claim_C10_witness :
    TrialReachable someStart (startStep initState someStart) ∧
      ((startStep initState someStart).callResponders =
          initializeResponders someStart.responderCoords ∧
        ∀ r ∈ (startStep initState someStart).callResponders, r.busyUntil = 0) :=
  ⟨Relation.ReflTransGen.refl,
    claim_C10_call_responders_frozen someStart _ Relation.ReflTransGen.refl⟩

/-! ## startStep projection lemmas -/

@[simp] theorem startStep_isRunning (s0 : SimState) (o : StartDraws) :
    (startStep s0 o).isRunning = true := by
  rw [startStep]

@[simp] theorem startStep_isPaused (s0 : SimState) (o : StartDraws) :
    (startStep s0 o).isPaused = false := by
  rw [startStep]

@[simp] theorem startStep_simTime (s0 : SimState) (o : StartDraws) :
    (startStep s0 o).simTime = 0 := by
  rw [startStep]

@[simp] theorem startStep_lastSelfCompleteCheck (s0 : SimState) (o : StartDraws) :
    (startStep s0 o).lastSelfCompleteCheck = 0 := by
  rw [startStep]

@[simp] theorem startStep_callEmergencies (s0 : SimState) (o : StartDraws) :
    (startStep s0 o).callEmergencies = [] := by
  rw [startStep]

@[simp] theorem startStep_reportEmergencies (s0 : SimState) (o : StartDraws) :
    (startStep s0 o).reportEmergencies = [] := by
  rw [startStep]

@[simp] theorem startStep_callStats (s0 : SimState) (o : StartDraws) :
    (startStep s0 o).callStats = Stats.zero := by
  rw [startStep]

@[simp] theorem startStep_reportStats (s0 : SimState) (o : StartDraws) :
    (startStep s0 o).reportStats = Stats.zero := by
  rw [startStep]

@[simp] theorem startStep_callQueue (s0 : SimState) (o : StartDraws) :
    (startStep s0 o).callQueue = [] := by
  rw [startStep]

@[simp] theorem startStep_callOperatorsBusy (s0 : SimState) (o : StartDraws) :
    (startStep s0 o).callOperatorsBusy = List.replicate CALL_OPERATORS_COUNT 0 := by
  rw [startStep]

@[simp] theorem startStep_completedCallIds (s0 : SimState) (o : StartDraws) :
    (startStep s0 o).completedCallIds = [] := by
  rw [startStep]

@[simp] theorem startStep_completedReportIds (s0 : SimState) (o : StartDraws) :
    (startStep s0 o).completedReportIds = [] := by
  rw [startStep]

@[simp] theorem startStep_speed (s0 : SimState) (o : StartDraws) :
    (startStep s0 o).speed = s0.speed := by
  rw [startStep]

@[simp] theorem startStep_results (s0 : SimState) (o : StartDraws) :
    (startStep s0 o).results = s0.results := by
  rw [startStep]

@[simp] theorem startStep_callTimers (s0 : SimState) (o : StartDraws) :
    (startStep s0 o).callTimers = s0.callTimers := by
  rw [startStep]

@[simp] theorem startStep_reportTimers (s0 : SimState) (o : StartDraws) :
    (startStep s0 o).reportTimers = s0.reportTimers := by
  rw [startStep]

@[simp] theorem startStep_currentTrial (s0 : SimState) (o : StartDraws) :
    (startStep s0 o).currentTrial = s0.currentTrial + 1 := by
  rw [startStep]

theorem startStep_reportResponders (s0 : SimState) (o : StartDraws) :
    (startStep s0 o).reportResponders = initializeResponders o.responderCoords := by
  rw [startStep]

theorem startStep_emergencyRate (s0 : SimState) (o : StartDraws) :
    (startStep s0 o).emergencyRate =
      ((BASE_CALLS : ℚ) + (((⌊o.additionalRoll * 10000⌋ + 5000 : ℤ)) : ℚ)) /
        ((SIMULATION_HOURS : ℚ) * 3600) := by
  rw [startStep]

/-! ## Claim C7: single result capture per trial -/

def countRows (l : List SimulationResult) (t : ℕ) (k : PipelineKind) : ℕ :=
  (l.filter fun r => decide (r.trial = t ∧ r.type = k)).length

theorem countRows_append (l1 l2 : List SimulationResult) (t : ℕ) (k : PipelineKind) :
    countRows (l1 ++ l2) t k = countRows l1 t k + countRows l2 t k := by
  simp [countRows, List.filter_append]

theorem countRows_zero_of_not_any {l : List SimulationResult} {t : ℕ}
    (h : (l.any fun r => decide (r.trial = t)) = false) (k : PipelineKind) :
    countRows l t k = 0 := by
  rw [countRows, List.length_eq_zero]
  rw [List.filter_eq_nil_iff]
  intro r hr
  simp only [decide_eq_true_eq, not_and]
  intro htr
  rw [List.any_eq_false] at h
  exact absurd (by simpa using htr) (by simpa using h r hr)

theorem exists_row_of_countRows_pos {l : List SimulationResult} {t : ℕ} {k : PipelineKind}
    (h : 0 < countRows l t k) : ∃ r ∈ l, r.trial = t := by
  rw [countRows] at h
  rcases List.exists_mem_of_length_pos h with ⟨r, hr⟩
  rw [List.mem_filter] at hr
  exact ⟨r, hr.1, (of_decide_eq_true hr.2).1⟩

theorem any_of_exists_row {l : List SimulationResult} {t : ℕ}
    (h : ∃ r ∈ l, r.trial = t) : (l.any fun r => decide (r.trial = t)) = true := by
  rw [List.any_eq_true]
  rcases h with ⟨r, hr, ht⟩
  exact ⟨r, hr, by simpa using ht⟩

def resultsInv (s : SimState) : Prop :=
  countRows s.results s.currentTrial .call = countRows s.results s.currentTrial .report ∧
    countRows s.results s.currentTrial .call ≤ 1 ∧ 0 < s.currentTrial

theorem captureStep_resultsInv {s : SimState} (h : resultsInv s) :
    resultsInv (captureStep s) := by
  rcases h with ⟨heq, hle, ht⟩
  rw [captureStep]
  split
  · split
    · exact ⟨heq, hle, ht⟩
    · rename_i hcond hany
      rw [Bool.not_eq_true] at hany
      have h0c := countRows_zero_of_not_any hany PipelineKind.call
      have h0r := countRows_zero_of_not_any hany PipelineKind.report
      refine ⟨?_, ?_, ht⟩
      · show countRows (s.results ++ _) s.currentTrial _ =
          countRows (s.results ++ _) s.currentTrial _
        rw [countRows_append, countRows_append, h0c, h0r]
        simp [countRows, mkResult]
      · show countRows (s.results ++ _) s.currentTrial _ ≤ 1
        rw [countRows_append, h0c]
        simp [countRows, mkResult]
  · exact ⟨heq, hle, ht⟩

theorem trialStep_results {s s' : SimState} (h : TrialStep s s') :
    (s'.results = s.results ∧ s'.currentTrial = s.currentTrial) ∨ s' = captureStep s := by
  rcases h with ⟨e, hstep, hns⟩
  cases hstep with
  | start o h1 h2 => exact absurd rfl (hns o)
  | gen o _ _ _ =>
    obtain ⟨-, -, h3, h4, -⟩ := genTick_frame s o
    exact Or.inl ⟨h3, h4⟩
  | process o _ _ _ =>
    obtain ⟨-, -, -, -, h3, h4, -⟩ := processTick_frame s o
    exact Or.inl ⟨h3, h4⟩
  | fireCall i =>
    obtain ⟨-, -, -, -, h3, h4, -⟩ := fireCallTimer_frame s i
    exact Or.inl ⟨h3, h4⟩
  | fireReport i =>
    obtain ⟨-, -, -, -, h3, h4, -⟩ := fireReportTimer_frame s i
    exact Or.inl ⟨h3, h4⟩
  | capture => exact Or.inr rfl
  | setSpeed v => exact Or.inl ⟨rfl, rfl⟩
  | togglePause _ => exact Or.inl ⟨rfl, rfl⟩

theorem trialReachable_resultsInv (o : StartDraws) (s : SimState) (h : TrialReachable o s) :
    resultsInv s := by
  induction h with
  | refl =>
    refine ⟨?_, ?_, ?_⟩ <;> simp [countRows, resultsInv, initState]
  | tail _ hbc ih =>
    rcases trialStep_results hbc with ⟨hr, hc⟩ | hcap
    · rcases ih with ⟨h1, h2, h3⟩
      rw [resultsInv, hr, hc]
      exact ⟨h1, h2, h3⟩
    · rw [hcap]
      exact captureStep_resultsInv ih

/-- Claim C7: once the simulated clock has reached the horizon and the
generation driver has stopped the trial, the capture effect emits exactly
one result row per pipeline for the current trial, and re-running the
capture effect is a no-op (idempotent on repeated Finished observations). -/
theorem claim_C7_single_capture (o : StartDraws) (s : SimState) (h : TrialReachable o s)
    (hhor : HORIZON ≤ s.simTime) (hrun : s.isRunning = false) :
    countRows (captureStep s).results s.currentTrial .call = 1 ∧
      countRows (captureStep s).results s.currentTrial .report = 1 ∧
      captureStep (captureStep s) = captureStep s := by
  obtain ⟨heq, hle, ht⟩ := trialReachable_resultsInv o s h
  have hcond : HORIZON ≤ s.simTime ∧ 0 < s.currentTrial ∧ s.isRunning = false :=
    ⟨hhor, ht, hrun⟩
  have hmain : countRows (captureStep s).results s.currentTrial .call = 1 ∧
      countRows (captureStep s).results s.currentTrial .report = 1 := by
    rw [captureStep, if_pos hcond]
    cases hany : s.results.any (fun r => decide (r.trial = s.currentTrial)) with
    | false =>
      rw [if_neg (by simp [hany])]
      have h0c := countRows_zero_of_not_any hany PipelineKind.call
      have h0r := countRows_zero_of_not_any hany PipelineKind.report
      constructor
      · rw [countRows_append, h0c]
        simp [countRows, mkResult]
      · rw [countRows_append, h0r]
        simp [countRows, mkResult]
    | true =>
      rw [if_pos (by simp [hany])]
      rcases List.any_eq_true.mp hany with ⟨r, hr, htr⟩
      have htr' : r.trial = s.currentTrial := of_decide_eq_true htr
      have hpos : 0 < countRows s.results s.currentTrial r.type := by
        rw [countRows, List.length_pos]
        apply List.ne_nil_of_mem (a := r)
        exact List.mem_filter.mpr ⟨hr, by simp [htr']⟩
      cases hty : r.type with
      | call =>
        rw [hty] at hpos
        omega
      | report =>
        rw [hty] at hpos
        omega
  refine ⟨hmain.1, hmain.2, ?_⟩
  have hct : (captureStep s).currentTrial = s.currentTrial := (captureStep_frame s).2.2.2.2.1
  have hany' : ((captureStep s).results.any fun r =>
      decide (r.trial = (captureStep s).currentTrial)) = true := by
    rw [hct]
    apply any_of_exists_row
    apply exists_row_of_countRows_pos (k := PipelineKind.call)
    rw [hmain.1]
    norm_num
  have hcond' : HORIZON ≤ (captureStep s).simTime ∧ 0 < (captureStep s).currentTrial ∧
      (captureStep s).isRunning = false := by
    obtain ⟨hr1, -, -, hsim, hctr, -⟩ := captureStep_frame s
    rw [hr1, hsim, hctr]
    exact ⟨hhor, ht, hrun⟩
  conv_lhs => rw [captureStep]
  rw [if_pos hcond', if_pos hany']

/-! ## Running a trial to the horizon (used for witnesses and claim C8) -/

theorem genTick_noGen (s : SimState) (o : GenDraws) (hh : s.simTime + 1 < HORIZON)
    (hr : ¬ o.genRoll < s.emergencyRate) :
    genTick s o = { s with simTime := s.simTime + 1 } := by
  rw [genTick]
  dsimp only
  rw [if_neg (by omega), if_neg hr]

theorem genTick_horizon (s : SimState) (o : GenDraws) (hh : HORIZON ≤ s.simTime + 1) :
    genTick s o = { s with simTime := s.simTime + 1, isRunning := false } := by
  rw [genTick]
  dsimp only
  rw [if_pos hh]

/-- Generation draw that always fails the generation roll for the start
draws used in the witnesses (rate is below `9/10`). -/
def noGenDraw : GenDraws :=
  { genRoll := 9/10, coords := ((59 : ℚ)/2, (-95 : ℚ)), idRoll := 0 }

theorem noGenDraw_ok : noGenDraw.ok := by
  refine ⟨⟨by norm_num [noGenDraw], by norm_num [noGenDraw]⟩,
    ⟨by norm_num [noGenDraw, HOUSTON_latMin], by norm_num [noGenDraw, HOUSTON_latMax],
      by norm_num [noGenDraw, HOUSTON_lngMin], by norm_num [noGenDraw, HOUSTON_lngMax]⟩,
    by norm_num [noGenDraw], by norm_num [noGenDraw]⟩

theorem reach_many_noGen (s0 : SimState) (hrun : s0.isRunning = true)
    (hpau : s0.isPaused = false) (hrate : ¬ noGenDraw.genRoll < s0.emergencyRate) :
    ∀ n : ℕ, s0.simTime + n < HORIZON →
      Relation.ReflTransGen TrialStep s0 { s0 with simTime := s0.simTime + n } := by
  intro n
  induction n with
  | zero =>
    intro _
    exact Relation.ReflTransGen.refl
  | succ n ih =>
    intro h
    have h1 : s0.simTime + n < HORIZON := by omega
    refine Relation.ReflTransGen.tail (ih h1) ?_
    refine ⟨Ev.gen noGenDraw, ?_, fun o heq => Ev.noConfusion heq⟩
    have hstep := Step.gen { s0 with simTime := s0.simTime + n } noGenDraw
      (by simpa using hrun) (by simpa using hpau) noGenDraw_ok
    rwa [genTick_noGen _ _ (by simpa using h) (by simpa using hrate)] at hstep

theorem someStart_rate :
    (startStep initState someStart).emergencyRate = 80000 / 172800 := by
  rw [startStep_emergencyRate]
  norm_num [someStart, BASE_CALLS, SIMULATION_HOURS]

def horizonState : SimState :=
  { startStep initState someStart with simTime := HORIZON, isRunning := false }

theorem reach_horizon (s0 : SimState) (hrun : s0.isRunning = true)
    (hpau : s0.isPaused = false) (hrate : ¬ noGenDraw.genRoll < s0.emergencyRate)
    (hsim : s0.simTime = 0) :
    Relation.ReflTransGen TrialStep s0 { s0 with simTime := HORIZON, isRunning := false } := by
  have hmany := reach_many_noGen s0 hrun hpau hrate (HORIZON - 1)
    (by rw [hsim]; norm_num [HORIZON, SIMULATION_HOURS])
  refine Relation.ReflTransGen.tail hmany ?_
  refine ⟨Ev.gen noGenDraw, ?_, fun o heq => Ev.noConfusion heq⟩
  have hstep := Step.gen { s0 with simTime := s0.simTime + (HORIZON - 1) } noGenDraw
    (by simpa using hrun) (by simpa using hpau) noGenDraw_ok
  rw [genTick_horizon _ _ (by simp [hsim, HORIZON, SIMULATION_HOURS])] at hstep
  have harith : ({ s0 with simTime := s0.simTime + (HORIZON - 1) } : SimState).simTime + 1 =
      HORIZON := by
    simp only []
    rw [hsim]
    norm_num [HORIZON, SIMULATION_HOURS]
  rw [harith] at hstep
  exact hstep

theorem horizonState_reachable : TrialReachable someStart horizonState := by
  have hrate : ¬ noGenDraw.genRoll < (startStep initState someStart).emergencyRate := by
    rw [someStart_rate]
    norm_num [noGenDraw]
  exact reach_horizon (startStep initState someStart) (startStep_isRunning _ _)
    (startStep_isPaused _ _) hrate (startStep_simTime _ _)

theorem horizonState_simTime : horizonState.simTime = HORIZON := by
  rw [horizonState]

theorem horizonState_isRunning : horizonState.isRunning = false := by
  rw [horizonState]

theorem claim_C7_witness :
    (TrialReachable someStart horizonState ∧ HORIZON ≤ horizonState.simTime ∧
      horizonState.isRunning = false) ∧
    (countRows (captureStep horizonState).results horizonState.currentTrial .call = 1 ∧
      countRows (captureStep horizonState).results horizonState.currentTrial .report = 1 ∧
      captureStep (captureStep horizonState) = captureStep horizonState) :=
  ⟨⟨horizonState_reachable, le_of_eq horizonState_simTime.symm, horizonState_isRunning⟩,
    claim_C7_single_capture someStart horizonState horizonState_reachable
      (le_of_eq horizonState_simTime.symm) horizonState_isRunning⟩

/-! ## Claim C6: emergency generation -/

/-- The emergency minted by a successful generation draw (lines 387-398). -/
def genEmergency (s : SimState) (o : GenDraws) : Emergency :=
  { id := ((s.simTime + 1 : ℕ) : ℚ) * 1000 + ((⌊o.idRoll * 1000⌋ : ℤ) : ℚ)
    coordinates := o.coords
    timestamp := s.simTime + 1
    status := .pending
    waitTime := 0
    gridCell := getGridCell o.coords }

theorem genTick_gen_eq (s : SimState) (o : GenDraws) (hhor : s.simTime + 1 < HORIZON)
    (hroll : o.genRoll < s.emergencyRate) :
    genTick s o = { s with
      simTime := s.simTime + 1
      callEmergencies := s.callEmergencies ++ [genEmergency s o]
      callQueue := s.callQueue ++ [genEmergency s o]
      reportEmergencies := s.reportEmergencies ++
        [{ genEmergency s o with id := (genEmergency s o).id + 0.5 }] } := by
  rw [genTick]
  dsimp only
  rw [if_neg (by omega), if_pos hroll]
  rfl

/-- Claim C6: whenever the per-tick generation draw succeeds (and the
horizon is not reached), exactly one incident is created: one `Emergency`
appended to the call list and to the back of the call queue, and a twin
with id shifted by `0.5` (hence distinct), identical coordinates and
timestamp, appended to the report list; both have status Pending and
creation time equal to the new current simulated second. -/
theorem claim_C6_generation (s : SimState) (o : GenDraws)
    (hhor : s.simTime + 1 < HORIZON) (hroll : o.genRoll < s.emergencyRate) :
    ∃ em : Emergency,
      (genTick s o).callEmergencies = s.callEmergencies ++ [em] ∧
      (genTick s o).callQueue = s.callQueue ++ [em] ∧
      (genTick s o).reportEmergencies =
        s.reportEmergencies ++ [{ em with id := em.id + 0.5 }] ∧
      em.status = .pending ∧
      ({ em with id := em.id + 0.5 } : Emergency).status = .pending ∧
      ({ em with id := em.id + 0.5 } : Emergency).coordinates = em.coordinates ∧
      ({ em with id := em.id + 0.5 } : Emergency).timestamp = em.timestamp ∧
      em.id + 0.5 ≠ em.id ∧
      em.coordinates = o.coords ∧
      em.timestamp = s.simTime + 1 ∧
      (genTick s o).simTime = s.simTime + 1 := by
  refine ⟨genEmergency s o, ?_, ?_, ?_, rfl, rfl, rfl, rfl, ?_, rfl, rfl, ?_⟩
  · rw [genTick_gen_eq s o hhor hroll]
  · rw [genTick_gen_eq s o hhor hroll]
  · rw [genTick_gen_eq s o hhor hroll]
  · intro h
    rw [add_right_eq_self] at h
    norm_num at h
  · rw [genTick_gen_eq s o hhor hroll]

/-- Generation draw used in witnesses: roll `0` always succeeds. -/
def alwaysGenDraw : GenDraws :=
  { genRoll := 0, coords := ((59 : ℚ)/2, (-95 : ℚ)), idRoll := 0 }

theorem alwaysGenDraw_ok : alwaysGenDraw.ok := by
  refine ⟨⟨le_refl 0, by norm_num [alwaysGenDraw]⟩,
    ⟨by norm_num [alwaysGenDraw, HOUSTON_latMin], by norm_num [alwaysGenDraw, HOUSTON_latMax],
      by norm_num [alwaysGenDraw, HOUSTON_lngMin], by norm_num [alwaysGenDraw, HOUSTON_lngMax]⟩,
    le_refl 0, by norm_num [alwaysGenDraw]⟩

theorem claim_C6_witness :
    ((startStep initState someStart).simTime + 1 < HORIZON ∧
      alwaysGenDraw.genRoll < (startStep initState someStart).emergencyRate) ∧
    (∃ em : Emergency,
      (genTick (startStep initState someStart) alwaysGenDraw).callEmergencies =
        (startStep initState someStart).callEmergencies ++ [em] ∧
      (genTick (startStep initState someStart) alwaysGenDraw).callQueue =
        (startStep initState someStart).callQueue ++ [em] ∧
      (genTick (startStep initState someStart) alwaysGenDraw).reportEmergencies =
        (startStep initState someStart).reportEmergencies ++
          [{ em with id := em.id + 0.5 }] ∧
      em.status = .pending ∧
      ({ em with id := em.id + 0.5 } : Emergency).status = .pending ∧
      ({ em with id := em.id + 0.5 } : Emergency).coordinates = em.coordinates ∧
      ({ em with id := em.id + 0.5 } : Emergency).timestamp = em.timestamp ∧
      em.id + 0.5 ≠ em.id ∧
      em.coordinates = alwaysGenDraw.coords ∧
      em.timestamp = (startStep initState someStart).simTime + 1 ∧
      (genTick (startStep initState someStart) alwaysGenDraw).simTime =
        (startStep initState someStart).simTime + 1) := by
  have h1 : (startStep initState someStart).simTime + 1 < HORIZON := by
    rw [startStep_simTime]
    norm_num [HORIZON, SIMULATION_HOURS]
  have h2 : alwaysGenDraw.genRoll < (startStep initState someStart).emergencyRate := by
    rw [someStart_rate]
    norm_num [alwaysGenDraw]
  exact ⟨⟨h1, h2⟩, claim_C6_generation (startStep initState someStart) alwaysGenDraw h1 h2⟩

/-! ## Claim C9: the speed command performs no validation -/

/-- Claim C9 is false on the code: `setSpeed` (the range input's onChange
handler, `setSpeed(Number(e.target.value))`) stores any value including a
negative one with no validation and no error; only the HTML attributes
`min="1" max="1000"` of the slider constrain what the browser UI can emit.
The step relation accepts the command; the stored speed becomes `-5` and
the running trial continues. -/
theorem claim_C9_negative_speed_accepted :
    ∃ s' : SimState, Step (startStep initState someStart) (Ev.setSpeed (-5)) s' ∧
      s'.speed = -5 ∧ s'.isRunning = (startStep initState someStart).isRunning ∧
      s'.results = (startStep initState someStart).results ∧
      s'.callEmergencies = (startStep initState someStart).callEmergencies :=
  ⟨setSpeedHandler (startStep initState someStart) (-5),
    Step.setSpeed _ _, rfl, rfl, rfl, rfl⟩

/-! ## Claim C5: hangup eligibility -/

theorem exists_of_statusById {l : List Emergency} {i : ℚ} {v : EStatus}
    (h : statusById l i = some v) : ∃ e ∈ l, e.id = i ∧ e.status = v := by
  rw [statusById] at h
  cases hf : l.find? (fun e => decide (e.id = i)) with
  | none => rw [hf] at h; cases h
  | some e =>
    rw [hf] at h
    refine ⟨e, List.mem_of_find?_eq_some hf, ?_, ?_⟩
    · have hp := List.find?_some hf
      simpa using hp
    · exact Option.some.inj h

theorem statusById_append_left {l l2 : List Emergency} {i : ℚ} {v : EStatus}
    (h : statusById l i = some v) : statusById (l ++ l2) i = some v := by
  rw [statusById, List.find?_append]
  rw [statusById] at h
  cases hf : l.find? (fun e => decide (e.id = i)) with
  | none => rw [hf] at h; cases h
  | some e =>
    rw [hf] at h
    simpa using h

theorem statusById_append_right {l : List Emergency} {em : Emergency} {i : ℚ}
    (h : ∀ e ∈ l, e.id ≠ i) : statusById (l ++ [em]) i = statusById [em] i := by
  rw [statusById, List.find?_append, statusById]
  have : l.find? (fun e => decide (e.id = i)) = none := by
    rw [List.find?_eq_none]
    intro x hx
    simpa using h x hx
  rw [this]
  rfl

theorem setStatus_forall_id {l : List Emergency} {tid : ℚ} {st' : EStatus}
    {P : ℚ → Prop} (h : ∀ e ∈ l, P e.id) : ∀ e ∈ setStatus l tid st', P e.id := by
  intro e he
  rcases List.mem_map.mp he with ⟨y, hy, rfl⟩
  have := h y hy
  split <;> exact this

/-- The per-trial invariant that makes the hangup path honest: queue ids
are distinct, every queued emergency is Pending in the emergency list, all
emergency and pending-timer ids are below the id-freshness bound, and no
pending deferred completion targets a queued emergency. -/
def QueueInv (s : SimState) : Prop :=
  (s.callQueue.map Emergency.id).Nodup ∧
  (∀ e ∈ s.callQueue, statusById s.callEmergencies e.id = some .pending) ∧
  (∀ e ∈ s.callEmergencies, e.id < 1000 * ((s.simTime : ℚ) + 1)) ∧
  (∀ t ∈ s.callTimers, t.emergencyId < 1000 * ((s.simTime : ℚ) + 1)) ∧
  (∀ t ∈ s.callTimers, ∀ e ∈ s.callQueue, t.emergencyId ≠ e.id)

/-- The processing tick is the only transition that can cancel, and it
cancels only aged queued pending emergencies. -/
theorem processTick_cancel_source (s : SimState) (o : ProcessDraws) (i : ℚ)
    (hinv : QueueInv s)
    (hnew : statusById (processTick s o).callEmergencies i = some .canceled)
    (hold : statusById s.callEmergencies i ≠ some .canceled) :
    statusById s.callEmergencies i = some .pending ∧
      ∃ em ∈ s.callQueue, em.id = i ∧
        HANGUP_THRESHOLD < (s.simTime : ℚ) - (em.timestamp : ℚ) := by
  rw [processTick] at hnew
  have h3 := selfCompleteStep_no_cancel s o.selfRoll _ i hnew
  rw [reportLoop_callEmergencies] at h3
  have h4 := hangupLoop_canceled_source s.simTime o.hangupRoll _ 0 _ i h3
  rcases h4 with h4 | ⟨e, he, hid, hage⟩
  · rcases dispatchLoop_status s.simTime o.callProcRoll s.callQueue
      (freeOperatorIndices s.callOperatorsBusy s.simTime) 0 s i with h5 | h5
    · rw [h5] at h4
      exact absurd h4 hold
    · exact absurd (h5.symm.trans h4) (by simp)
  · have hsub : e ∈ s.callQueue :=
      (dispatchLoop_queue_suffix s.simTime o.callProcRoll s.callQueue
        (freeOperatorIndices s.callOperatorsBusy s.simTime) 0 s).subset he
    have hpend := hinv.2.1 e hsub
    rw [hid] at hpend
    exact ⟨hpend, e, hsub, hid, hage⟩

/-- Claim C5: over any in-trial transition, an emergency that newly becomes
Canceled was a queued Pending emergency strictly older than the hangup
threshold at the pre-state.  In particular no emergency whose age does not
exceed `HANGUP_THRESHOLD` and no Assigned emergency is ever canceled. -/
theorem claim_C5_hangup_only_old_pending (s s' : SimState) (i : ℚ)
    (hstep : TrialStep s s')
    (hinv : QueueInv s)
    (hnew : statusById s'.callEmergencies i = some .canceled)
    (hold : statusById s.callEmergencies i ≠ some .canceled) :
    statusById s.callEmergencies i = some .pending ∧
      ∃ em ∈ s.callQueue, em.id = i ∧
        HANGUP_THRESHOLD < (s.simTime : ℚ) - (em.timestamp : ℚ) := by
  obtain ⟨ev, hst, hne⟩ := hstep
  cases hst with
  | start o h1 h2 => exact absurd rfl (hne o)
  | process o h1 h2 h3 => exact processTick_cancel_source s o i hinv hnew hold
  | gen o h1 h2 h3 =>
    exfalso
    rw [genTick] at hnew
    dsimp only at hnew
    revert hnew
    split
    · exact fun hnew => hold hnew
    · split
      · intro hnew
        cases hsb : statusById s.callEmergencies i with
        | some v =>
          rw [statusById_append_left hsb] at hnew
          exact hold (hsb.trans hnew)
        | none =>
          have hne2 : ∀ e ∈ s.callEmergencies, e.id ≠ i := by
            rw [statusById] at hsb
            have hf := Option.map_eq_none'.mp hsb
            rw [List.find?_eq_none] at hf
            intro e he heq
            exact hf e he (by simpa using heq)
          rw [statusById_append_right hne2, statusById] at hnew
          obtain ⟨a, hfa, hstat⟩ := Option.map_eq_some'.mp hnew
          have ha := List.mem_of_find?_eq_some hfa
          rw [List.mem_singleton] at ha
          subst ha
          simp at hstat
      · exact fun hnew => hold hnew
  | fireCall j =>
    exfalso
    rw [fireCallTimer] at hnew
    revert hnew
    cases ht : s.callTimers[j]? with
    | none => exact fun hnew => hold hnew
    | some t =>
      dsimp only
      split
      · exact fun hnew => hold hnew
      · intro hnew
        rw [statusById_setStatus] at hnew
        revert hnew
        split
        · intro hnew
          obtain ⟨a, _, hstat⟩ := Option.map_eq_some'.mp hnew
          simp at hstat
        · exact fun hnew => hold hnew
  | fireReport j =>
    exfalso
    rw [(fireReportTimer_frame s j).2.2.2.2.2.2.2.1] at hnew
    exact hold hnew
  | capture =>
    exfalso
    rw [(captureStep_frame s).2.2.2.2.2.2.1] at hnew
    exact hold hnew
  | setSpeed v => exact absurd hnew hold
  | togglePause h1 => exact absurd hnew hold

/-- A crafted mid-trial state: one queued pending call emergency aged 499
seconds, the single operator busy until t = 2000, report pipeline idle,
self-complete check not due. -/
def e501 : Emergency where
  id := 501000
  coordinates := ((29 : ℚ), (-95 : ℚ))
  timestamp := 501
  status := .pending
  gridCell := (1475, -4750)

def S5 : SimState where
  isRunning := true
  isPaused := false
  speed := 10
  simTime := 1000
  results := []
  currentTrial := 1
  lastSelfCompleteCheck := 1000
  callEmergencies := [e501]
  reportEmergencies := []
  callResponders := []
  reportResponders := []
  callStats := Stats.zero
  reportStats := Stats.zero
  callQueue := [e501]
  callOperatorsBusy := [2000]
  emergencyRate := 80000/172800
  completedCallIds := []
  completedReportIds := []
  callTimers := []
  reportTimers := []

def o5 : ProcessDraws where
  callProcRoll := fun _ => 0
  hangupRoll := fun _ => 0
  reportProcRoll := fun _ => 0
  selfRoll := fun _ _ => 0

theorem o5_ok : o5.ok :=
  ⟨fun _ => ⟨le_refl 0, by norm_num [o5]⟩, fun _ => ⟨le_refl 0, by norm_num [o5]⟩,
   fun _ => ⟨le_refl 0, by norm_num [o5]⟩, fun _ _ => ⟨le_refl 0, by norm_num [o5]⟩⟩

theorem claim_C5_witness :
    statusById S5.callEmergencies (501000 : ℚ) = some .pending ∧
      ∃ em ∈ S5.callQueue, em.id = (501000 : ℚ) ∧
        HANGUP_THRESHOLD < ((S5.simTime : ℕ) : ℚ) - (em.timestamp : ℚ) :=
  claim_C5_hangup_only_old_pending S5 (processTick S5 o5) 501000
    ⟨Ev.process o5, Step.process S5 o5 rfl rfl o5_ok, fun o h => Ev.noConfusion h⟩
    (by
      refine ⟨by decide, by decide, ?_, by simp [S5], by simp [S5]⟩
      intro e he
      simp only [S5] at he
      simp at he
      subst he
      norm_num [e501, S5])
    (by
      rw [processTick]
      rw [show freeOperatorIndices S5.callOperatorsBusy S5.simTime = [] from by decide]
      rw [show dispatchLoop S5.simTime o5.callProcRoll S5.callQueue [] 0 S5 =
        { S5 with callQueue := [e501] } from rfl]
      dsimp only
      rw [hangupLoop,
        if_pos (by constructor <;> norm_num [S5, e501, o5, HANGUP_THRESHOLD, HANGUP_CHANCE])]
      rw [hangupLoop]
      dsimp only
      rw [show (S5.reportResponders.filter fun r => decide (r.busyUntil ≤ (S5.simTime : ℚ))) = []
        from rfl]
      rw [reportLoop]
      rw [selfCompleteStep, if_neg (by norm_num [S5, SELF_COMPLETE_CHECK_INTERVAL])]
      dsimp only
      simp [statusById, setStatus, e501, S5])
    (by decide)

/-! ## The queue invariant holds at every reachable state -/

/-- The shape of `QueueInv` over explicit components, with an arbitrary
id bound `M`, for transport through the per-tick passes. -/
def QueueInvAt (cE q : List Emergency) (tms : List DeferredCompletion) (M : ℚ) : Prop :=
  (q.map Emergency.id).Nodup ∧
  (∀ e ∈ q, statusById cE e.id = some .pending) ∧
  (∀ e ∈ cE, e.id < M) ∧
  (∀ t ∈ tms, t.emergencyId < M) ∧
  (∀ t ∈ tms, ∀ e ∈ q, t.emergencyId ≠ e.id)

theorem queueInv_iff (s : SimState) :
    QueueInv s ↔
      QueueInvAt s.callEmergencies s.callQueue s.callTimers
        (1000 * ((s.simTime : ℚ) + 1)) := Iff.rfl

theorem dispatchLoop_queueInv (now : ℕ) (roll : ℕ → ℚ) (M : ℚ) :
    ∀ (q : List Emergency) (ops : List ℕ) (k : ℕ) (st : SimState),
      QueueInvAt st.callEmergencies q st.callTimers M →
      QueueInvAt (dispatchLoop now roll q ops k st).callEmergencies
        (dispatchLoop now roll q ops k st).callQueue
        (dispatchLoop now roll q ops k st).callTimers M := by
  intro q
  induction q with
  | nil =>
    intro ops k st h
    obtain ⟨h1, h2, h3, h4, h5⟩ := h
    cases ops <;>
      exact ⟨by simp [dispatchLoop], by simp [dispatchLoop],
        by simpa [dispatchLoop] using h3, by simpa [dispatchLoop] using h4,
        by simp [dispatchLoop]⟩
  | cons e tl ih =>
    intro ops k st h
    obtain ⟨h1, h2, h3, h4, h5⟩ := h
    rw [List.map_cons, List.nodup_cons] at h1
    obtain ⟨h1a, h1b⟩ := h1
    cases ops with
    | nil =>
      refine ⟨?_, ?_, ?_, ?_, ?_⟩
      · simpa [dispatchLoop] using And.intro h1a h1b
      · simpa [dispatchLoop] using h2
      · simpa [dispatchLoop] using h3
      · simpa [dispatchLoop] using h4
      · simpa [dispatchLoop] using h5
    | cons op rest =>
      simp only [dispatchLoop]
      refine ih rest (k + 1) _ ⟨h1b, ?_, ?_, ?_, ?_⟩
      · intro x hx
        dsimp only
        rw [statusById_setStatus, if_neg]
        · exact h2 x (List.mem_cons_of_mem e hx)
        · intro heq
          exact h1a (heq ▸ List.mem_map_of_mem Emergency.id hx)
      · exact @setStatus_forall_id _ _ _ (fun a => a < M) h3
      · intro t ht
        dsimp only at ht
        rcases List.mem_append.mp ht with hl | hr
        · exact h4 t hl
        · have ht' : t.emergencyId = e.id := by
            simp at hr
            rw [hr]
          rw [ht']
          obtain ⟨e', he', hid, _⟩ := exists_of_statusById (h2 e (List.mem_cons_self e tl))
          exact hid ▸ h3 e' he'
      · intro t ht x hx
        dsimp only at ht
        rcases List.mem_append.mp ht with hl | hr
        · exact h5 t hl x (List.mem_cons_of_mem e hx)
        · have ht' : t.emergencyId = e.id := by
            simp at hr
            rw [hr]
          rw [ht']
          intro heq
          exact h1a (heq ▸ List.mem_map_of_mem Emergency.id hx)

theorem hangupLoop_queue_sublist (now : ℕ) (roll : ℕ → ℚ) :
    ∀ (q : List Emergency) (k : ℕ) (st : SimState),
      List.Sublist (hangupLoop now roll q k st).callQueue q := by
  intro q
  induction q with
  | nil =>
    intro k st
    simp [hangupLoop]
  | cons e tl ih =>
    intro k st
    rw [hangupLoop]
    split
    · exact (ih (k + 1) _).trans (List.sublist_cons_self e tl)
    · dsimp only
      exact (ih (k + 1) st).cons₂ e

theorem hangupLoop_status_other (now : ℕ) (roll : ℕ → ℚ) :
    ∀ (q : List Emergency) (k : ℕ) (st : SimState) (i : ℚ),
      (∀ e ∈ q, e.id ≠ i) →
      statusById (hangupLoop now roll q k st).callEmergencies i =
        statusById st.callEmergencies i := by
  intro q
  induction q with
  | nil =>
    intro k st i _
    simp [hangupLoop]
  | cons e tl ih =>
    intro k st i hne
    rw [hangupLoop]
    split
    · rw [ih (k + 1) _ i fun x hx => hne x (List.mem_cons_of_mem e hx)]
      dsimp only
      rw [statusById_setStatus, if_neg fun h => hne e (List.mem_cons_self e tl) h.symm]
    · dsimp only
      exact ih (k + 1) st i fun x hx => hne x (List.mem_cons_of_mem e hx)

theorem hangupLoop_queueInv (now : ℕ) (roll : ℕ → ℚ) (M : ℚ) :
    ∀ (q : List Emergency) (k : ℕ) (st : SimState),
      QueueInvAt st.callEmergencies q st.callTimers M →
      QueueInvAt (hangupLoop now roll q k st).callEmergencies
        (hangupLoop now roll q k st).callQueue
        (hangupLoop now roll q k st).callTimers M := by
  intro q
  induction q with
  | nil =>
    intro k st h
    obtain ⟨h1, h2, h3, h4, h5⟩ := h
    exact ⟨by simp [hangupLoop], by simp [hangupLoop],
      by simpa [hangupLoop] using h3, by simpa [hangupLoop] using h4,
      by simp [hangupLoop]⟩
  | cons e tl ih =>
    intro k st h
    obtain ⟨h1, h2, h3, h4, h5⟩ := h
    rw [List.map_cons, List.nodup_cons] at h1
    obtain ⟨h1a, h1b⟩ := h1
    have htl_ne : ∀ x ∈ tl, x.id ≠ e.id := by
      intro x hx heq
      exact h1a (heq ▸ List.mem_map_of_mem Emergency.id hx)
    rw [hangupLoop]
    split
    · refine ih (k + 1) _ ⟨h1b, ?_, ?_, ?_, ?_⟩
      · intro x hx
        dsimp only
        rw [statusById_setStatus, if_neg fun heq => htl_ne x hx heq]
        exact h2 x (List.mem_cons_of_mem e hx)
      · exact @setStatus_forall_id _ _ _ (fun a => a < M) h3
      · exact h4
      · exact fun t ht x hx => h5 t ht x (List.mem_cons_of_mem e hx)
    · dsimp only
      obtain ⟨g1, g2, g3, g4, g5⟩ := ih (k + 1) st
        ⟨h1b, fun x hx => h2 x (List.mem_cons_of_mem e hx), h3, h4,
          fun t ht x hx => h5 t ht x (List.mem_cons_of_mem e hx)⟩
      refine ⟨?_, ?_, g3, g4, ?_⟩
      · rw [List.map_cons, List.nodup_cons]
        refine ⟨?_, g1⟩
        intro hmem
        rcases List.mem_map.mp hmem with ⟨x, hx, hxid⟩
        have hx' : x ∈ tl := (hangupLoop_queue_sublist now roll tl (k + 1) st).subset hx
        exact htl_ne x hx' hxid
      · intro x hx
        rcases List.mem_cons.mp hx with rfl | hx'
        · rw [hangupLoop_status_other now roll tl (k + 1) st x.id htl_ne]
          exact h2 x (List.mem_cons_self x tl)
        · exact g2 x hx'
      · intro t ht x hx
        rcases List.mem_cons.mp hx with rfl | hx'
        · rw [hangupLoop_callTimers] at ht
          exact h5 t ht x (List.mem_cons_self x tl)
        · exact g5 t ht x hx'

theorem selfCompleteLoop_queueInv (pre : SimState) (roll : ℕ → ℕ → ℚ) (M : ℚ) :
    ∀ (l : List Emergency) (i : ℕ) (st : SimState),
      QueueInvAt st.callEmergencies st.callQueue st.callTimers M →
      QueueInvAt (selfCompleteLoop pre roll l i st).callEmergencies
        (selfCompleteLoop pre roll l i st).callQueue
        (selfCompleteLoop pre roll l i st).callTimers M := by
  intro l
  induction l with
  | nil =>
    intro i st h
    simpa [selfCompleteLoop] using h
  | cons e tl ih =>
    intro i st h
    rw [selfCompleteLoop]
    dsimp only
    split
    · exact ih (i + 1) st h
    · cases firstSuccessIdx (roll i)
        (findNearbyResponders e pre.callResponders (buildSpatialGrid pre.callResponders)
          CALL_SELF_COMPLETE_closeRange (pre.simTime : ℚ)) 0 with
      | none => exact ih (i + 1) st h
      | some j =>
        obtain ⟨h1, h2, h3, h4, h5⟩ := h
        refine ih (i + 1) _ ⟨?_, ?_, ?_, ?_, ?_⟩
        · dsimp only
          exact h1.sublist (List.Sublist.map Emergency.id (List.filter_sublist st.callQueue))
        · intro x hx
          dsimp only at hx ⊢
          have hx' := List.mem_filter.mp hx
          have hxe : ¬ x.id = e.id := by simpa using hx'.2
          rw [statusById_setStatus, if_neg hxe]
          exact h2 x hx'.1
        · exact @setStatus_forall_id _ _ _ (fun a => a < M) h3
        · exact h4
        · intro t ht x hx
          dsimp only at hx
          exact h5 t ht x (List.mem_filter.mp hx).1

theorem selfCompleteStep_queueInv (pre : SimState) (roll : ℕ → ℕ → ℚ) (st : SimState)
    (M : ℚ) (h : QueueInvAt st.callEmergencies st.callQueue st.callTimers M) :
    QueueInvAt (selfCompleteStep pre roll st).callEmergencies
      (selfCompleteStep pre roll st).callQueue
      (selfCompleteStep pre roll st).callTimers M := by
  rw [selfCompleteStep_def]
  split
  · exact selfCompleteLoop_queueInv pre roll M _ 0 _ h
  · exact h

theorem statusById_singleton (em : Emergency) : statusById [em] em.id = some em.status := by
  rw [statusById, List.find?_cons_of_pos _ (by simp)]
  rfl

theorem queueInv_of_frame {s s' : SimState}
    (hcE : s'.callEmergencies = s.callEmergencies)
    (hq : s'.callQueue = s.callQueue)
    (ht : s'.callTimers = s.callTimers)
    (hsim : s'.simTime = s.simTime)
    (h : QueueInv s) : QueueInv s' := by
  rw [queueInv_iff] at h ⊢
  rw [hcE, hq, ht, hsim]
  exact h

theorem processTick_queueInv (s : SimState) (o : ProcessDraws) (h : QueueInv s) :
    QueueInv (processTick s o) := by
  rw [queueInv_iff] at h ⊢
  rw [(processTick_frame s o).2.2.2.1]
  rw [processTick]
  refine selfCompleteStep_queueInv s o.selfRoll _ _ ?_
  rw [reportLoop_callEmergencies, reportLoop_callQueue, reportLoop_callTimers]
  exact hangupLoop_queueInv s.simTime o.hangupRoll _ _ 0 _
    (dispatchLoop_queueInv s.simTime o.callProcRoll _ s.callQueue
      (freeOperatorIndices s.callOperatorsBusy s.simTime) 0 s h)

theorem genTick_queueInv (s : SimState) (o : GenDraws) (ho : o.ok) (h : QueueInv s) :
    QueueInv (genTick s o) := by
  rw [queueInv_iff] at h ⊢
  obtain ⟨h1, h2, h3, h4, h5⟩ := h
  have hmono : (1000 : ℚ) * ((s.simTime : ℚ) + 1) ≤
      1000 * (((s.simTime + 1 : ℕ) : ℚ) + 1) := by
    push_cast
    linarith
  have hqid : ∀ x ∈ s.callQueue, x.id < 1000 * ((s.simTime : ℚ) + 1) := by
    intro x hx
    obtain ⟨e', he', hid, _⟩ := exists_of_statusById (h2 x hx)
    exact hid ▸ h3 e' he'
  rw [genTick]
  dsimp only
  split
  · exact ⟨h1, h2, fun e he => lt_of_lt_of_le (h3 e he) hmono,
      fun t ht => lt_of_lt_of_le (h4 t ht) hmono, h5⟩
  · split
    · dsimp only
      have hf0 : (0 : ℤ) ≤ ⌊o.idRoll * 1000⌋ :=
        Int.floor_nonneg.mpr (mul_nonneg ho.2.2.1 (by norm_num))
      have hf1 : ⌊o.idRoll * 1000⌋ < 1000 := by
        rw [Int.floor_lt]
        push_cast
        nlinarith [ho.2.2.2]
      have hE0 : (1000 : ℚ) * ((s.simTime : ℚ) + 1) ≤
          ((s.simTime + 1 : ℕ) : ℚ) * 1000 + ((⌊o.idRoll * 1000⌋ : ℤ) : ℚ) := by
        have : (0 : ℚ) ≤ ((⌊o.idRoll * 1000⌋ : ℤ) : ℚ) := by exact_mod_cast hf0
        push_cast
        linarith
      have hE1 : ((s.simTime + 1 : ℕ) : ℚ) * 1000 + ((⌊o.idRoll * 1000⌋ : ℤ) : ℚ) <
          1000 * (((s.simTime + 1 : ℕ) : ℚ) + 1) := by
        have : ((⌊o.idRoll * 1000⌋ : ℤ) : ℚ) < 1000 := by exact_mod_cast hf1
        push_cast
        linarith
      have hcEne : ∀ e ∈ s.callEmergencies,
          e.id ≠ ((s.simTime + 1 : ℕ) : ℚ) * 1000 + ((⌊o.idRoll * 1000⌋ : ℤ) : ℚ) := by
        intro e he
        exact ne_of_lt (lt_of_lt_of_le (h3 e he) hE0)
      refine ⟨?_, ?_, ?_, ?_, ?_⟩
      · rw [List.map_append, List.map_singleton]
        refine List.Nodup.append h1 (List.nodup_singleton _) ?_
        intro a ha hb
        rcases List.mem_map.mp ha with ⟨x, hx, hxid⟩
        rw [List.mem_singleton] at hb
        have := hqid x hx
        rw [hxid, hb] at this
        exact absurd this (not_lt_of_ge hE0)
      · intro x hx
        rcases List.mem_append.mp hx with hl | hr
        · exact statusById_append_left (h2 x hl)
        · rw [List.mem_singleton] at hr
          subst hr
          rw [statusById_append_right hcEne]
          exact statusById_singleton _
      · intro x hx
        rcases List.mem_append.mp hx with hl | hr
        · exact lt_of_lt_of_le (h3 x hl) hmono
        · rw [List.mem_singleton] at hr
          subst hr
          exact hE1
      · exact fun t ht => lt_of_lt_of_le (h4 t ht) hmono
      · intro t ht x hx
        rcases List.mem_append.mp hx with hl | hr
        · exact h5 t ht x hl
        · rw [List.mem_singleton] at hr
          subst hr
          exact ne_of_lt (lt_of_lt_of_le (h4 t ht) hE0)
    · exact ⟨h1, h2, fun e he => lt_of_lt_of_le (h3 e he) hmono,
        fun t ht => lt_of_lt_of_le (h4 t ht) hmono, h5⟩

theorem fireCallTimer_queueInv (s : SimState) (i : ℕ) (h : QueueInv s) :
    QueueInv (fireCallTimer s i) := by
  rw [queueInv_iff] at h ⊢
  obtain ⟨h1, h2, h3, h4, h5⟩ := h
  rw [(fireCallTimer_frame s i).2.2.2.1]
  rw [fireCallTimer]
  cases ht : s.callTimers[i]? with
  | none => exact ⟨h1, h2, h3, h4, h5⟩
  | some t =>
    have htmem : t ∈ s.callTimers := by
      have := List.getElem?_eq_some.mp ht
      obtain ⟨hlt, hget⟩ := this
      exact hget ▸ List.getElem_mem hlt
    have herase : ∀ t' ∈ s.callTimers.eraseIdx i, t' ∈ s.callTimers :=
      fun t' ht' => (List.eraseIdx_sublist s.callTimers i).subset ht'
    dsimp only
    split
    · exact ⟨h1, h2, h3, fun t' ht' => h4 t' (herase t' ht'),
        fun t' ht' x hx => h5 t' (herase t' ht') x hx⟩
    · refine ⟨h1, ?_, ?_, ?_, ?_⟩
      · intro x hx
        dsimp only
        rw [statusById_setStatus, if_neg fun heq => h5 t htmem x hx heq.symm]
        exact h2 x hx
      · exact @setStatus_forall_id _ _ _ (fun a => a < 1000 * ((s.simTime : ℚ) + 1)) h3
      · exact fun t' ht' => h4 t' (herase t' ht')
      · exact fun t' ht' x hx => h5 t' (herase t' ht') x hx

theorem trialStep_queueInv {s s' : SimState} (hstep : TrialStep s s') (h : QueueInv s) :
    QueueInv s' := by
  obtain ⟨e, hst, hne⟩ := hstep
  cases hst with
  | start o h1 h2 => exact absurd rfl (hne o)
  | gen o h1 h2 h3 => exact genTick_queueInv s o h3 h
  | process o h1 h2 h3 => exact processTick_queueInv s o h
  | fireCall i => exact fireCallTimer_queueInv s i h
  | fireReport i =>
    exact queueInv_of_frame (fireReportTimer_frame s i).2.2.2.2.2.2.2.1
      (fireReportTimer_frame s i).2.2.2.2.2.2.2.2.1
      (fireReportTimer_frame s i).2.2.2.2.2.2.2.2.2.2.2.2.2.2.1
      (fireReportTimer_frame s i).2.2.2.1 h
  | capture =>
    exact queueInv_of_frame (captureStep_frame s).2.2.2.2.2.2.1
      (captureStep_frame s).2.2.2.2.2.2.2.2.1
      (captureStep_frame s).2.2.2.2.2.2.2.2.2.2.2.2.2.2.2.2.1
      (captureStep_frame s).2.2.2.1 h
  | setSpeed v => exact queueInv_of_frame rfl rfl rfl rfl h
  | togglePause h1 => exact queueInv_of_frame rfl rfl rfl rfl h

/-- Every state reachable inside a trial satisfies the queue invariant
`QueueInv` assumed by the C5 theorem: it is not an extra axiom but a
property of the system. -/
theorem trialReachable_queueInv (o : StartDraws) (s : SimState)
    (h : TrialReachable o s) : QueueInv s := by
  induction h with
  | refl =>
    rw [queueInv_iff, startStep_callEmergencies, startStep_callQueue, startStep_callTimers]
    refine ⟨by simp, by simp, by simp, ?_, by simp⟩
    intro t ht
    simp [initState] at ht
  | tail _ hbc ih => exact trialStep_queueInv hbc ih


/-! ## Claim C2: conservation (violated by the cancel/self-complete race) -/

/-- Number of emergencies currently holding the given status. -/
def countStatus (l : List Emergency) (st : EStatus) : ℕ :=
  (l.filter fun e => decide (e.status = st)).length


/-- A responder standing exactly at the crafted emergency, free, grid cell
stored consistently. -/
def r0 : FirstResponder where
  id := 0
  coordinates := ((29 : ℚ), (-95 : ℚ))
  busyUntil := 0
  gridCell := getGridCell ((29 : ℚ), (-95 : ℚ))

/-- `S5` with the self-completion check due (`lastSelfCompleteCheck = 940`,
`simTime = 1000`) and the one responder `r0` in the call population. -/
def S23 : SimState := { S5 with lastSelfCompleteCheck := 940, callResponders := [r0] }

theorem r0_mem_nearby : r0 ∈ findNearbyResponders e501 S23.callResponders
    (buildSpatialGrid S23.callResponders) CALL_SELF_COMPLETE_closeRange (S23.simTime : ℚ) := by
  have hpop : S23.callResponders = [r0] := rfl
  rw [hpop]
  refine (mem_findNearbyResponders (by simp) ?_).mpr ⟨List.mem_singleton_self r0, ?_, ?_, ?_⟩
  · intro r' hr'
    rw [List.mem_singleton] at hr'
    subst hr'
    rfl
  · have hco : r0.coordinates = e501.coordinates := rfl
    rw [hco]
    simp only [chebDist, sub_self, abs_zero, max_self]
    rw [radiusCellsOf]
    exact Int.ceil_nonneg (by norm_num [GRID_SIZE, CALL_SELF_COMPLETE_closeRange])
  · show (0 : ℚ) ≤ ((S23.simTime : ℕ) : ℚ)
    exact Nat.cast_nonneg _
  · have hco : r0.coordinates = e501.coordinates := rfl
    rw [hco, getDistance_self]
    norm_num [CALL_SELF_COMPLETE_closeRange]

theorem firstSuccess_S23 :
    firstSuccessIdx (o5.selfRoll 0) (findNearbyResponders e501 S23.callResponders
      (buildSpatialGrid S23.callResponders) CALL_SELF_COMPLETE_closeRange
      (S23.simTime : ℚ)) 0 = some 0 := by
  have hne : findNearbyResponders e501 S23.callResponders
      (buildSpatialGrid S23.callResponders) CALL_SELF_COMPLETE_closeRange
      (S23.simTime : ℚ) ≠ [] := by
    intro hnil
    have := r0_mem_nearby
    rw [hnil] at this
    exact (List.not_mem_nil r0) this
  obtain ⟨rh, rt, hcons⟩ := List.exists_cons_of_ne_nil hne
  rw [hcons, firstSuccessIdx, if_pos (by norm_num [o5, CALL_SELF_COMPLETE_closeChance])]

/-- Claim C2: the conservation law fails.  At `S23` one processing tick
both cancels the queued emergency (hangup pass) and self-completes it (the
self-completion pass reads the pre-tick pending snapshot and the hangup
pass does not record the id in `completedCallIds`), so with one emergency
generated the sampled counts give completed + canceled + pending +
assigned = 2. -/
theorem claim_C2_conservation_violated :
    (processTick S23 o5).callEmergencies.length = 1 ∧
    (processTick S23 o5).callStats.completed
        + (processTick S23 o5).callStats.canceled
        + countStatus (processTick S23 o5).callEmergencies .pending
        + countStatus (processTick S23 o5).callEmergencies .assigned = 2 := by
  rw [processTick]
  rw [show freeOperatorIndices S23.callOperatorsBusy S23.simTime = [] from by decide]
  rw [show dispatchLoop S23.simTime o5.callProcRoll S23.callQueue [] 0 S23 =
    { S23 with callQueue := [e501] } from rfl]
  dsimp only
  rw [hangupLoop,
    if_pos (by constructor <;> norm_num [S23, S5, e501, o5, HANGUP_THRESHOLD, HANGUP_CHANCE])]
  rw [hangupLoop]
  dsimp only
  rw [show (S23.reportResponders.filter fun r => decide (r.busyUntil ≤ (S23.simTime : ℚ))) = []
    from rfl]
  rw [reportLoop]
  rw [selfCompleteStep_def,
    if_pos (by norm_num [S23, S5, SELF_COMPLETE_CHECK_INTERVAL])]
  rw [show (S23.callEmergencies.filter fun e => decide (e.status = .pending)) = [e501]
    from rfl]
  rw [selfCompleteLoop]
  dsimp only
  rw [if_neg (by decide)]
  rw [firstSuccess_S23]
  dsimp only
  rw [selfCompleteLoop]
  refine ⟨by decide, by decide⟩

/-! ## Claim C3: at-most-once terminal transitions -/

/-- Counterexample to "terminal transition happens at most once": in one
tick at `S23` the emergency is both canceled (hangup, counter bumped) and
then self-completed (counter bumped again, status overwritten to
Completed), because the hangup pass records nothing in `completedCallIds`
and the self-completion pass scans the pre-tick pending snapshot. -/
theorem claim_C3_counterexample :
    (processTick S23 o5).callStats.canceled = 1 ∧
    (processTick S23 o5).callStats.selfCompleted = 1 ∧
    statusById (processTick S23 o5).callEmergencies e501.id = some .completed := by
  rw [processTick]
  rw [show freeOperatorIndices S23.callOperatorsBusy S23.simTime = [] from by decide]
  rw [show dispatchLoop S23.simTime o5.callProcRoll S23.callQueue [] 0 S23 =
    { S23 with callQueue := [e501] } from rfl]
  dsimp only
  rw [hangupLoop,
    if_pos (by constructor <;> norm_num [S23, S5, e501, o5, HANGUP_THRESHOLD, HANGUP_CHANCE])]
  rw [hangupLoop]
  dsimp only
  rw [show (S23.reportResponders.filter fun r => decide (r.busyUntil ≤ (S23.simTime : ℚ))) = []
    from rfl]
  rw [reportLoop]
  rw [selfCompleteStep_def,
    if_pos (by norm_num [S23, S5, SELF_COMPLETE_CHECK_INTERVAL])]
  rw [show (S23.callEmergencies.filter fun e => decide (e.status = .pending)) = [e501]
    from rfl]
  rw [selfCompleteLoop]
  dsimp only
  rw [if_neg (by decide)]
  rw [firstSuccess_S23]
  dsimp only
  rw [selfCompleteLoop]
  exact ⟨by decide, by decide, by decide⟩

/-- Claim C3 (amended): what the guard actually guarantees is only the
deferred-callback half — a deferred completion firing for an id already in
the pipeline's finalized-id set is a pure timer removal: no status, stats
or id-set change, in either pipeline.  The at-most-once part of the
original claim is refuted by `claim_C3_counterexample`. -/
theorem claim_C3_amended (s : SimState) (i : ℕ) :
    (∀ t : DeferredCompletion, s.callTimers[i]? = some t →
      t.emergencyId ∈ s.completedCallIds →
      fireCallTimer s i = { s with callTimers := s.callTimers.eraseIdx i }) ∧
    (∀ t : DeferredCompletion, s.reportTimers[i]? = some t →
      t.emergencyId ∈ s.completedReportIds →
      fireReportTimer s i = { s with reportTimers := s.reportTimers.eraseIdx i }) := by
  constructor <;> intro t ht hmem
  · rw [fireCallTimer, ht]
    dsimp only
    rw [if_pos hmem]
  · rw [fireReportTimer, ht]
    dsimp only
    rw [if_pos hmem]

/-- A minimal state with one finalized id and one stale timer per pipeline. -/
def Stiny : SimState :=
  { initState with
    callTimers := [⟨7, 0, 100, 100⟩]
    completedCallIds := [7]
    reportTimers := [⟨7, 0, 100, 100⟩]
    completedReportIds := [7] }

theorem claim_C3_witness :
    fireCallTimer Stiny 0 = { Stiny with callTimers := [] } ∧
    fireReportTimer Stiny 0 = { Stiny with reportTimers := [] } := by
  obtain ⟨h1, h2⟩ := claim_C3_amended Stiny 0
  constructor
  · simpa using h1 ⟨7, 0, 100, 100⟩ rfl (by decide)
  · simpa using h2 ⟨7, 0, 100, 100⟩ rfl (by decide)


/-! ## Claim C8: stale deferred completions across a trial boundary -/

/-- Reachability from component mount, now including new `startSimulation`
presses (trial boundaries). -/
def FullReach (s : SimState) : Prop :=
  Relation.ReflTransGen (fun a b => ∃ e, Step a e b) initState s

theorem fullReach_of_trial {a b : SimState}
    (h : Relation.ReflTransGen TrialStep a b) :
    Relation.ReflTransGen (fun x y => ∃ e, Step x e y) a b :=
  h.mono fun _ _ hxy => ⟨hxy.choose, hxy.choose_spec.1⟩

noncomputable def C8A : SimState := startStep initState someStart
noncomputable def C8B : SimState := genTick C8A alwaysGenDraw
noncomputable def C8C : SimState := processTick C8B o5

theorem C8B_eq : C8B = { C8A with
    simTime := C8A.simTime + 1
    callEmergencies := C8A.callEmergencies ++ [genEmergency C8A alwaysGenDraw]
    callQueue := C8A.callQueue ++ [genEmergency C8A alwaysGenDraw]
    reportEmergencies := C8A.reportEmergencies ++
      [{ genEmergency C8A alwaysGenDraw with id := (genEmergency C8A alwaysGenDraw).id + 0.5 }] } := by
  rw [C8B, genTick_gen_eq]
  · rw [C8A, startStep_simTime]
    norm_num [HORIZON, SIMULATION_HOURS]
  · rw [C8A, someStart_rate]
    norm_num [alwaysGenDraw]

theorem C8B_isRunning : C8B.isRunning = true := by rw [C8B_eq]; simp [C8A]
theorem C8B_isPaused : C8B.isPaused = false := by rw [C8B_eq]; simp [C8A]
theorem C8B_simTime : C8B.simTime = 1 := by rw [C8B_eq]; simp [C8A]
theorem C8B_callQueue : C8B.callQueue = [genEmergency C8A alwaysGenDraw] := by
  rw [C8B_eq]; simp [C8A]
theorem C8B_ops : C8B.callOperatorsBusy = List.replicate CALL_OPERATORS_COUNT 0 := by
  rw [C8B_eq]; simp [C8A]
theorem C8B_callTimers : C8B.callTimers = [] := by rw [C8B_eq]; simp [C8A, initState]
theorem C8B_lastCheck : C8B.lastSelfCompleteCheck = 0 := by rw [C8B_eq]; simp [C8A]
theorem C8B_currentTrial : C8B.currentTrial = 1 := by rw [C8B_eq]; simp [C8A, initState]
theorem C8B_rate : C8B.emergencyRate = 80000 / 172800 := by
  rw [C8B_eq]
  show C8A.emergencyRate = 80000 / 172800
  rw [C8A, someStart_rate]

theorem C8_freeOps : freeOperatorIndices C8B.callOperatorsBusy C8B.simTime =
    0 :: List.map Nat.succ (List.range 499) := by
  rw [C8B_ops, freeOperatorIndices]
  have hfilter : (List.replicate CALL_OPERATORS_COUNT (0:ℚ)).enum.filter
      (fun p => decide (p.2 ≤ (C8B.simTime : ℚ))) =
      (List.replicate CALL_OPERATORS_COUNT (0:ℚ)).enum := by
    refine List.filter_eq_self.mpr ?_
    intro p hp
    have hmem : p.2 ∈ List.replicate CALL_OPERATORS_COUNT (0:ℚ) := by
      rw [List.enum_eq_zip_range] at hp
      exact (List.of_mem_zip hp).2
    have hz : p.2 = 0 := List.eq_of_mem_replicate hmem
    rw [hz]
    simp
  rw [hfilter, List.enum_map_fst, List.length_replicate]
  show List.range 500 = _
  exact List.range_succ_eq_map 499

theorem dispatchLoop_nil_queue (now : ℕ) (roll : ℕ → ℚ) (ops : List ℕ) (k : ℕ)
    (st : SimState) : dispatchLoop now roll [] ops k st = { st with callQueue := [] } := by
  cases ops <;> simp [dispatchLoop]

/-- After the first processing tick of trial 1 exactly one deferred call
completion is pending: `startSimulation` never clears it
(no `clearTimeout`), so it survives into trial 2. -/
theorem C8C_callTimers : C8C.callTimers =
    [{ emergencyId := (genEmergency C8A alwaysGenDraw).id,
       emergencyTimestamp := (genEmergency C8A alwaysGenDraw).timestamp,
       completionTime := (C8B.simTime : ℚ) + (CALL_PROCESS_TIME_min +
         o5.callProcRoll 0 * (CALL_PROCESS_TIME_max - CALL_PROCESS_TIME_min)),
       processTime := CALL_PROCESS_TIME_min +
         o5.callProcRoll 0 * (CALL_PROCESS_TIME_max - CALL_PROCESS_TIME_min) }] := by
  rw [C8C, processTick]
  rw [selfCompleteStep_callTimers, reportLoop_callTimers, hangupLoop_callTimers]
  rw [C8B_callQueue, C8_freeOps]
  rw [dispatchLoop]
  rw [dispatchLoop_nil_queue]
  dsimp only
  rw [C8B_callTimers, List.nil_append]

theorem C8C_isRunning : C8C.isRunning = true := by
  rw [C8C, (processTick_frame C8B o5).1, C8B_isRunning]
theorem C8C_isPaused : C8C.isPaused = false := by
  rw [C8C, (processTick_frame C8B o5).2.1, C8B_isPaused]
theorem C8C_simTime : C8C.simTime = 1 := by
  rw [C8C, (processTick_frame C8B o5).2.2.2.1, C8B_simTime]
theorem C8C_currentTrial : C8C.currentTrial = 1 := by
  rw [C8C, (processTick_frame C8B o5).2.2.2.2.2.1, C8B_currentTrial]
theorem C8C_rate : C8C.emergencyRate = 80000 / 172800 := by
  rw [C8C, (processTick_frame C8B o5).2.2.2.2.2.2.1, C8B_rate]

noncomputable def C8mid : SimState := { C8C with simTime := C8C.simTime + (HORIZON - 2) }
noncomputable def C8s3 : SimState := { C8mid with simTime := C8mid.simTime + 1, isRunning := false }
noncomputable def C8s4 : SimState := startStep C8s3 someStart
noncomputable def C8s5 : SimState := fireCallTimer C8s4 0

theorem C8_reach_mid : Relation.ReflTransGen TrialStep C8C C8mid := by
  have hrate : ¬ noGenDraw.genRoll < C8C.emergencyRate := by
    rw [C8C_rate]
    norm_num [noGenDraw]
  exact reach_many_noGen C8C C8C_isRunning C8C_isPaused hrate (HORIZON - 2)
    (by rw [C8C_simTime]; norm_num [HORIZON, SIMULATION_HOURS])

theorem C8mid_isRunning : C8mid.isRunning = true := by
  rw [C8mid]
  exact C8C_isRunning

theorem C8mid_isPaused : C8mid.isPaused = false := by
  rw [C8mid]
  exact C8C_isPaused

theorem C8_horizon_le : HORIZON ≤ C8mid.simTime + 1 := by
  have h : C8mid.simTime = C8C.simTime + (HORIZON - 2) := by rw [C8mid]
  rw [h, C8C_simTime]
  norm_num [HORIZON, SIMULATION_HOURS]

theorem C8_genTick_eq : genTick C8mid noGenDraw = C8s3 := by
  rw [genTick_horizon C8mid noGenDraw C8_horizon_le]
  rw [C8s3]

theorem C8_step_horizon : Step C8mid (Ev.gen noGenDraw) C8s3 :=
  C8_genTick_eq ▸ Step.gen C8mid noGenDraw C8mid_isRunning C8mid_isPaused noGenDraw_ok

theorem C8s3_isRunning : C8s3.isRunning = false := by
  rw [C8s3]

theorem C8s3_callTimers : C8s3.callTimers = C8C.callTimers := by
  rw [C8s3, C8mid]

theorem C8s3_currentTrial : C8s3.currentTrial = 1 := by
  rw [C8s3, C8mid]
  exact C8C_currentTrial

theorem C8s4_callTimers : C8s4.callTimers = C8C.callTimers := by
  rw [C8s4, startStep_callTimers, C8s3_callTimers]

theorem C8s5_facts : C8s5.currentTrial = 2 ∧ C8s5.callEmergencies = [] ∧
    C8s5.callQueue = [] ∧ C8s5.callStats.completed = 1 := by
  have ht : C8s4.callTimers[0]? = some
      { emergencyId := (genEmergency C8A alwaysGenDraw).id,
        emergencyTimestamp := (genEmergency C8A alwaysGenDraw).timestamp,
        completionTime := (C8B.simTime : ℚ) + (CALL_PROCESS_TIME_min +
          o5.callProcRoll 0 * (CALL_PROCESS_TIME_max - CALL_PROCESS_TIME_min)),
        processTime := CALL_PROCESS_TIME_min +
          o5.callProcRoll 0 * (CALL_PROCESS_TIME_max - CALL_PROCESS_TIME_min) } := by
    rw [C8s4_callTimers, C8C_callTimers]
    rfl
  rw [C8s5, fireCallTimer, ht]
  dsimp only
  rw [if_neg (by rw [C8s4, startStep_completedCallIds]; simp)]
  refine ⟨?_, ?_, ?_, ?_⟩
  · show C8s4.currentTrial = 2
    rw [C8s4, startStep_currentTrial, C8s3_currentTrial]
  · show setStatus C8s4.callEmergencies (genEmergency C8A alwaysGenDraw).id .completed = []
    rw [C8s4, startStep_callEmergencies]
    rfl
  · show C8s4.callQueue = []
    rw [C8s4, startStep_callQueue]
  · show C8s4.callStats.completed + 1 = 1
    rw [C8s4, startStep_callStats]
    rfl

/-- Claim C8: a deferred completion scheduled in trial 1 that fires after
trial 2 has reset the pipelines is NOT silently discarded: the run below
reaches a trial-2 state with no emergencies generated at all whose
completed counter nevertheless reads 1 — the stale timer passed the
`completedCallIds` guard (the ref was reset to empty) and mutated the new
trial's stats. -/
theorem claim_C8_stale_timer_not_discarded :
    ∃ s : SimState, FullReach s ∧ s.currentTrial = 2 ∧ s.callEmergencies = [] ∧
      s.callQueue = [] ∧ s.callStats.completed = 1 := by
  refine ⟨C8s5, ?_, C8s5_facts.1, C8s5_facts.2.1, C8s5_facts.2.2.1, C8s5_facts.2.2.2⟩
  have h1 : Relation.ReflTransGen (fun a b => ∃ e, Step a e b) initState C8A :=
    Relation.ReflTransGen.single
      ⟨Ev.start someStart, Step.start initState someStart rfl someStart_ok⟩
  have h2 : Relation.ReflTransGen (fun a b => ∃ e, Step a e b) initState C8B :=
    h1.tail ⟨Ev.gen alwaysGenDraw,
      Step.gen C8A alwaysGenDraw (startStep_isRunning _ _) (startStep_isPaused _ _)
        alwaysGenDraw_ok⟩
  have h3 : Relation.ReflTransGen (fun a b => ∃ e, Step a e b) initState C8C :=
    h2.tail ⟨Ev.process o5, Step.process C8B o5 C8B_isRunning C8B_isPaused o5_ok⟩
  have h4 := h3.trans (fullReach_of_trial C8_reach_mid)
  have h5 := h4.tail ⟨Ev.gen noGenDraw, C8_step_horizon⟩
  have h6 := h5.tail ⟨Ev.start someStart, Step.start C8s3 someStart C8s3_isRunning someStart_ok⟩
  exact h6.tail ⟨Ev.fireCall 0, Step.fireCall C8s4 0⟩
